import Mathlib

/-!
# Verification of argocd-config-check (jgwest/argocd-config-check)

A shallow embedding, in Lean 4, of the diagnostic resolution and
rule-evaluation engine of `argocd-config-check` (`src/main.go`,
`src/utils.go`), together with theorems settling the frozen claims about
its natural-language specification.

Modelling conventions:
* Go strings are Lean `String`s; the Go standard-library string
  operations used by the program (`strings.HasPrefix`, `strings.TrimSpace`,
  `strings.SplitSeq`, `strings.ReplaceAll`, `strings.TrimPrefix`, string
  comparison) are given structurally recursive reference implementations
  over the underlying character lists, so that all definitions evaluate
  inside the kernel.  Go compares strings byte-wise; UTF-8 byte order
  coincides with code-point order, which is what the reference
  implementations use.
* Go maps (`map[string]string`) are represented by association lists in
  a definite iteration order; a list with `Nodup` keys represents a map.
  Go randomizes map iteration order between runs, so properties about
  "the same map" are stated as quantification over permutations of the
  association list.
* Go `int32`/`int64` values are `Int` with explicit wrap-around
  (`wrap32`) where overflow can occur, and `Int.tdiv` for Go's
  truncating integer division.
* Fallible Kubernetes client calls are fields of a `DataSource` record
  holding `Except String` results; a Go runtime panic (such as an
  assignment to a nil map) is modelled by the embedded function
  returning `Except.error`.
-/

namespace ArgoCDConfigCheck

/-! ## Go string primitives (reference implementations) -/

/-- Byte/code-point lexicographic `<` on character lists, as Go compares
strings: a proper leading fragment is smaller, otherwise the first
differing character decides. -/
def charListLt : List Char → List Char → Bool
  | [], [] => false
  | [], _ :: _ => true
  | _ :: _, [] => false
  | a :: as, b :: bs =>
    if a.toNat < b.toNat then true
    else if b.toNat < a.toNat then false
    else charListLt as bs

/-- Go string comparison `a < b` (lexicographic, byte order = code-point
order for UTF-8). -/
def goStringLt (a b : String) : Bool :=
  charListLt a.data b.data

/-- Go `strings.HasPrefix s pre` / comparison against a literal prefix. -/
def strStartsWith (s pre : String) : Bool :=
  pre.data.isPrefixOf s.data

/-- Go `strings.TrimPrefix s "--"`: drop a leading `--` if present. -/
def trimLeadingDashes (s : String) : String :=
  if strStartsWith s "--" then s.drop 2 else s

/-- Whitespace characters recognized by `strings.TrimSpace` (the ASCII
subset; the program only ever trims namespace names). -/
def isSpaceChar (c : Char) : Bool :=
  c == ' ' || c == '\t' || c == '\n' || c == '\r' ||
  c == Char.ofNat 11 || c == Char.ofNat 12

/-- Go `strings.TrimSpace`. -/
def goTrimSpace (s : String) : String :=
  String.mk (((s.data.dropWhile isSpaceChar).reverse.dropWhile isSpaceChar).reverse)

/-- Split a character list at every comma (Go `strings.SplitSeq v ","`). -/
def splitCommaAux : List Char → List Char → List String
  | [], acc => [String.mk acc.reverse]
  | c :: cs, acc =>
    if c == ',' then String.mk acc.reverse :: splitCommaAux cs []
    else splitCommaAux cs (c :: acc)

/-- Go `strings.SplitSeq s ","` collected into a list. -/
def goSplitComma (s : String) : List String :=
  splitCommaAux s.data []

/-- Remove every `'` and `"` character, as the two
`strings.ReplaceAll(arg, q, "")` calls in `utils.go` do. -/
def stripQuotes (s : String) : String :=
  String.mk (s.data.filter (fun c => !(c == Char.ofNat 39) && !(c == Char.ofNat 34)))

/-- 32-bit two's-complement wrap-around, for Go `int32` arithmetic
(the constants are 2^31 and 2^32). -/
def wrap32 (x : Int) : Int :=
  (x + 2147483648) % 4294967296 - 2147483648

/-! ## Log levels, entries and issues (`main.go`) -/

/-- Severity taxonomy of `main.go`: Fatal (broken invariant, stop),
Error (high chance of misconfiguration), Warn (moderate chance). -/
inductive LogLevel where
  | Fatal
  | Error
  | Warn
deriving DecidableEq, Repr

/-- A resolution-phase diagnostic record (`type entry struct`). -/
structure entry where
  level : LogLevel
  message : String
deriving DecidableEq, Repr

/-- A per-object configuration problem (`type issue struct`). -/
structure issue where
  level : LogLevel
  field : String
  message : String
  unsupported : Bool := false
deriving DecidableEq, Repr

/-- `entryListContainsFatal` from `main.go` (the Go version first checks
for a nil slice, which coincides with the empty list here). -/
def entryListContainsFatal (entries : List entry) : Bool :=
  entries.any (fun e => e.level == LogLevel.Fatal)

/-! ## Kubernetes data model (the fields the checker reads) -/

/-- `corev1.EnvVar` restricted to the fields the checker reads. -/
structure EnvVar where
  name : String
  value : String
deriving DecidableEq, Repr

/-- `olmv1alpha1.SubscriptionConfig` (only `.Env` is read). -/
structure SubscriptionConfig where
  env : List EnvVar
deriving DecidableEq, Repr

/-- `olmv1alpha1.SubscriptionSpec` (only `.Package` and `.Config` are read). -/
structure SubscriptionSpec where
  package : String
  config : Option SubscriptionConfig := none
deriving DecidableEq, Repr

/-- `olmv1alpha1.SubscriptionStatus` (only the two CSV pointers are read). -/
structure SubscriptionStatus where
  currentCSV : String := ""
  installedCSV : String := ""
deriving DecidableEq, Repr

/-- An OLM `Subscription` with its object metadata.  `spec` is a pointer
in the Go API and technically nullable. -/
structure Subscription where
  name : String := ""
  ns : String := ""
  spec : Option SubscriptionSpec := none
  status : SubscriptionStatus := {}
deriving DecidableEq, Repr

/-- `olmv1alpha1.ClusterServiceVersion` restricted to the fields read:
`.Status.Phase`, `.Status.Reason` and `.Spec.Version`. -/
structure ClusterServiceVersion where
  phase : String := ""
  reason : String := ""
  version : String := ""
deriving DecidableEq, Repr

/-- A `corev1.Namespace`: its name and its label map (association list). -/
structure K8sNamespace where
  name : String := ""
  labels : List (String × String) := []
deriving DecidableEq, Repr

/-- Label keys from the argocd-operator `common` package; their exact
values do not influence any claim. -/
def argoCDManagedByLabel : String := "argocd.argoproj.io/managed-by"

/-- See `argoCDManagedByLabel`. -/
def argoCDManagedByClusterArgoCDLabel : String :=
  "argocd.argoproj.io/managed-by-cluster-argocd"

/-- See `argoCDManagedByLabel`. -/
def argoCDApplicationSetManagedByClusterArgoCDLabel : String :=
  "argocd.argoproj.io/applicationset-managed-by-cluster-argocd"

/-- See `argoCDManagedByLabel`. -/
def argoCDNotificationsManagedByClusterArgoCDLabel : String :=
  "argocd.argoproj.io/notifications-managed-by-cluster-argocd"

/-! ## The ArgoCD custom resource (fields read by the rule engine) -/

/-- `.spec.grafana` (only `Enabled` is read). -/
structure ArgoCDGrafanaSpec where
  enabled : Bool := false
deriving DecidableEq, Repr

/-- `.spec.sso.dex` (only `Image` is read). -/
structure ArgoCDDexSpec where
  image : String := ""
deriving DecidableEq, Repr

/-- `.spec.sso`; `keycloak` only matters by presence. -/
structure ArgoCDSSOSpec where
  dex : Option ArgoCDDexSpec := none
  keycloak : Option Unit := none
deriving DecidableEq, Repr

/-- `.spec.applicationSet`. -/
structure ArgoCDApplicationSet where
  image : String := ""
  enabled : Option Bool := none
  sourceNamespaces : List String := []
  extraCommandArgs : List String := []
  env : List EnvVar := []
deriving DecidableEq, Repr

/-- `.spec.ha` (only `RedisProxyImage` is read). -/
structure ArgoCDHASpec where
  redisProxyImage : String := ""
deriving DecidableEq, Repr

/-- `.spec.argoCDAgent.agent.tls`. -/
structure AgentTLSSpec where
  insecure : Option Bool := none
deriving DecidableEq, Repr

/-- `.spec.argoCDAgent.principal.tls`. -/
structure PrincipalTLSSpec where
  insecureGenerate : Option Bool := none
deriving DecidableEq, Repr

/-- `.spec.argoCDAgent.agent`. -/
structure ArgoCDAgentAgentSpec where
  image : String := ""
  tls : Option AgentTLSSpec := none
deriving DecidableEq, Repr

/-- `.spec.argoCDAgent.principal`. -/
structure ArgoCDAgentPrincipalSpec where
  image : String := ""
  tls : Option PrincipalTLSSpec := none
deriving DecidableEq, Repr

/-- `.spec.argoCDAgent`. -/
structure ArgoCDAgentSpec where
  agent : Option ArgoCDAgentAgentSpec := none
  principal : Option ArgoCDAgentPrincipalSpec := none
deriving DecidableEq, Repr

/-- `.spec.notifications` (only `Image` is read). -/
structure ArgoCDNotificationsSpec where
  image : String := ""
deriving DecidableEq, Repr

/-- `.spec.redis` (only `Image` is read). -/
structure ArgoCDRedisSpec where
  image : String := ""
deriving DecidableEq, Repr

/-- `.spec.repo`. -/
structure ArgoCDRepoSpec where
  image : String := ""
  enabled : Option Bool := none
  env : List EnvVar := []
deriving DecidableEq, Repr

/-- `.spec.server`. -/
structure ArgoCDServerSpec where
  insecure : Bool := false
  enabled : Option Bool := none
  env : List EnvVar := []
deriving DecidableEq, Repr

/-- `.spec.controller.sharding`.  `clustersPerShard` is an `int32`. -/
structure ArgoCDShardingSpec where
  enabled : Bool := false
  dynamicScalingEnabled : Option Bool := none
  clustersPerShard : Int := 0
deriving DecidableEq, Repr

/-- `.spec.controller.processors`; both counts are `int32`. -/
structure ArgoCDProcessorsSpec where
  operation : Int := 0
  status : Int := 0
deriving DecidableEq, Repr

/-- `corev1.ResourceRequirements` restricted to `.Limits`, a
`corev1.ResourceList` map from resource name to the quantity value in
bytes (what `Quantity.Value()` returns).  A `none` limits field models a
nil map. -/
structure ResourceRequirements where
  limits : Option (List (String × Int)) := none
deriving DecidableEq, Repr

/-- `corev1.ResourceList.Memory().Value()`: the k8s API `Name` accessor
returns a zero `Quantity` (never nil) when the key is absent, so the
value is the lookup with default `0`. -/
def resourceListMemoryValue (limits : List (String × Int)) : Int :=
  (List.lookup "memory" limits).getD 0

/-- `.spec.controller`. -/
structure ArgoCDApplicationControllerSpec where
  enabled : Option Bool := none
  env : List EnvVar := []
  extraCommandArgs : List String := []
  sharding : ArgoCDShardingSpec := {}
  processors : ArgoCDProcessorsSpec := {}
  resources : Option ResourceRequirements := none
deriving DecidableEq, Repr

/-- `ArgoCDApplicationControllerSpec.IsEnabled` /
`ArgoCDServerSpec.IsEnabled` from the argocd-operator API: a component is
enabled unless `Enabled` is explicitly false (`Enabled == nil || *Enabled`). -/
def componentIsEnabled (enabled : Option Bool) : Bool :=
  enabled.getD true

/-- `.spec` of the ArgoCD CR, restricted to every field the checker
reads.  `extraConfig` and `cmdParams` are `map[string]string` in Go,
represented here as association lists in a definite iteration order. -/
structure ArgoCDSpec where
  configManagementPlugins : String := ""
  grafana : ArgoCDGrafanaSpec := {}
  initialRepositories : String := ""
  repositoryCredentials : String := ""
  sso : Option ArgoCDSSOSpec := none
  applicationSet : Option ArgoCDApplicationSet := none
  ha : ArgoCDHASpec := {}
  argoCDAgent : Option ArgoCDAgentSpec := none
  notifications : ArgoCDNotificationsSpec := {}
  redis : ArgoCDRedisSpec := {}
  repo : ArgoCDRepoSpec := {}
  image : String := ""
  controller : ArgoCDApplicationControllerSpec := {}
  server : ArgoCDServerSpec := {}
  extraConfig : List (String × String) := []
  cmdParams : List (String × String) := []
deriving DecidableEq, Repr

/-- One `.status.conditions` element (only `Type` and `Status` are read). -/
structure ArgoCDCondition where
  condType : String := ""
  status : String := ""
deriving DecidableEq, Repr

/-- `.status` of the ArgoCD CR. -/
structure ArgoCDStatus where
  phase : String := ""
  conditions : List ArgoCDCondition := []
deriving DecidableEq, Repr

/-- The ArgoCD custom resource. -/
structure ArgoCD where
  name : String := ""
  ns : String := ""
  spec : ArgoCDSpec := {}
  status : ArgoCDStatus := {}
deriving DecidableEq, Repr

/-! ## `utils.go` helpers -/

/-- Inner loop of `containerArgsContainsParamKV` over the remaining
arguments, after the `--` prefix of the key has been stripped. -/
def argsContainsParamKVLoop (key paramValue : String) : List String → Bool
  | [] => false
  | arg :: rest =>
    let a := stripQuotes arg
    if a == "--" ++ key ++ "=" ++ paramValue then true
    else if a == "--" ++ key &&
        (match rest with
         | next :: _ => stripQuotes next == paramValue
         | [] => false) then true
    else argsContainsParamKVLoop key paramValue rest

/-- `containerArgsContainsParamKV` from `utils.go`: true if `args`
contains `--paramKey=value` or `--paramKey value`, stripping quote
characters first. -/
def containerArgsContainsParamKV (args : List String) (paramKey paramValue : String) : Bool :=
  argsContainsParamKVLoop (trimLeadingDashes paramKey) paramValue args

/-- Inner loop of `containerArgsContainsParam`. -/
def argsContainsParamLoop (key : String) : List String → Bool
  | [] => false
  | arg :: rest =>
    let a := stripQuotes arg
    if strStartsWith a ("--" ++ key ++ "=") then true
    else if a == "--" ++ key && !rest.isEmpty then true
    else argsContainsParamLoop key rest

/-- `containerArgsContainsParam` from `utils.go`: true if `args` contains
`--paramKey=(any value)` or `--paramKey (any value)`. -/
def containerArgsContainsParam (args : List String) (paramKey : String) : Bool :=
  argsContainsParamLoop (trimLeadingDashes paramKey) args

/-- `containerEnvVarContainsName` from `utils.go`. -/
def containerEnvVarContainsName (envs : List EnvVar) (name : String) : Bool :=
  envs.any (fun envVar => envVar.name == name)

/-- `containerEnvVarContainsKeyValue` from `utils.go`. -/
def containerEnvVarContainsKeyValue (envs : List EnvVar) (key value : String) : Bool :=
  envs.any (fun envVar => envVar.name == key && envVar.value == value)

/-! ## Rule engine (`main.go`) -/

/-- The message shared by all unsupported-custom-image issues. -/
def customImageMessage : String :=
  "The image field is used to provide custom container images for Argo CD components. However, specifying custom images for essential Argo CD components is not supported."

/-- Build one unsupported-custom-image issue for the given field path. -/
def customImageIssue (field : String) : issue :=
  { level := LogLevel.Error
    field := field
    message := customImageMessage
    unsupported := true }

/-- `checkArgoCDCRForUnsupportedCustomImages` from `main.go`: one
Error+unsupported issue per non-empty custom-image override field, in
source order. -/
def checkArgoCDCRForUnsupportedCustomImages (argoCD : ArgoCD) : List issue :=
  (match argoCD.spec.applicationSet with
   | some appSet => if appSet.image.length > 0 then [customImageIssue ".spec.applicationSet.image"] else []
   | none => []) ++
  (match argoCD.spec.sso with
   | some sso =>
     (match sso.dex with
      | some dex => if dex.image.length > 0 then [customImageIssue ".spec.sso.dex.image"] else []
      | none => [])
   | none => []) ++
  (if argoCD.spec.ha.redisProxyImage.length > 0 then [customImageIssue ".spec.ha.redisProxyImage"] else []) ++
  (match argoCD.spec.argoCDAgent with
   | some agentSpec =>
     (match agentSpec.agent with
      | some agent => if agent.image.length > 0 then [customImageIssue ".spec.argoCDAgent.agent.image"] else []
      | none => []) ++
     (match agentSpec.principal with
      | some principal => if principal.image.length > 0 then [customImageIssue ".spec.argoCDAgent.principal.image"] else []
      | none => [])
   | none => []) ++
  (if argoCD.spec.notifications.image.length > 0 then [customImageIssue ".spec.notifications.image"] else []) ++
  (if argoCD.spec.redis.image.length > 0 then [customImageIssue ".spec.redis.image"] else []) ++
  (if argoCD.spec.repo.image.length > 0 then [customImageIssue ".spec.repo.image"] else []) ++
  (if argoCD.spec.image.length > 0 then [customImageIssue ".spec.image"] else [])

/-- `checkArgoCDCRForDeprecatedFields` from `main.go`. -/
def checkArgoCDCRForDeprecatedFields (argoCD : ArgoCD) : List issue :=
  (if argoCD.spec.configManagementPlugins.length > 0 then
    [{ level := LogLevel.Error
       field := ".spec.configMapPlugins"
       message := "ConfigManagementPlugins field is no longer supported. Argo CD now requires plugins to be defined as sidecar containers of repo server component. See \x27.spec.repo.sidecarContainers\x27. ConfigManagementPlugins was previously used to specify additional config management plugins." }]
   else []) ++
  (if argoCD.spec.grafana.enabled then
    [{ level := LogLevel.Error
       field := ".spec.grafana"
       message := "grafana field is deprecated from ArgoCD CR: this field will be ignored by operator, and any remaining Grafana resources will be removed." }]
   else []) ++
  (if argoCD.spec.initialRepositories.length > 0 then
    [{ level := LogLevel.Error
       field := ".spec.initialRepositories"
       message := "initialRepositories field is deprecated from ArgoCD CR. The field will be ignored by operator." }]
   else []) ++
  (if argoCD.spec.repositoryCredentials.length > 0 then
    [{ level := LogLevel.Error
       field := ".spec.repositoryCredentials"
       message := "repositoryCredentials field is deprecated from ArgoCD CR. The field will be ignored by operator." }]
   else []) ++
  (match argoCD.spec.sso with
   | some sso =>
     (match sso.keycloak with
      | some _ =>
        [{ level := LogLevel.Error
           field := ".spec.sso.keycloak"
           message := "keycloak field is no longer supported. ArgoCD operator will no longer create and manage a keycloak instance on the users behalf. Users may instead manage their own keycloak instance (using e.g. keycloak operator) and configure Argo CD to use it." }]
      | none => [])
   | none => [])

/-- The message shared by all tech-preview issues. -/
def genericTechPreviewMessage : String :=
  "This field is a tech preview feature in OpenShift GitOps, which has not been GA-ed as of this writing. Tech preview features are not intended for production usage. More information on Tech Preview scope of support: https://access.redhat.com/support/offerings/techpreview"

/-- The tech-preview sharding-algorithm loop of
`checkForTechPreviewOrExperimentalFeatures`: for each experimental
algorithm, flag an env-var match, then flag an args match and break out
of the loop. -/
def shardingAlgorithmIssues (env : List EnvVar) (args : List String) : List String → List issue
  | [] => []
  | alg :: rest =>
    (if containerEnvVarContainsKeyValue env "ARGOCD_CONTROLLER_SHARDING_ALGORITHM" alg then
      [{ level := LogLevel.Warn
         field := ".spec.controller.env[ARGOCD_CONTROLLER_SHARDING_ALGORITHM]=" ++ alg
         message := genericTechPreviewMessage
         unsupported := true }]
     else []) ++
    (if containerArgsContainsParamKV args "sharding-method" alg then
      [{ level := LogLevel.Warn
         field := ".spec.controller.extraCommandArgs: --sharding-method=" ++ alg
         message := genericTechPreviewMessage
         unsupported := true }]
     else shardingAlgorithmIssues env args rest)

/-- `checkForTechPreviewOrExperimentalFeatures` from `main.go`. -/
def checkForTechPreviewOrExperimentalFeatures (argoCD : ArgoCD) : List issue :=
  (match argoCD.spec.applicationSet with
   | some appSet =>
     if appSet.enabled == some true then
       (if appSet.sourceNamespaces.length > 0 then
         [{ level := LogLevel.Warn
            field := ".spec.applicationSet.sourceNamespaces"
            message := genericTechPreviewMessage
            unsupported := true }]
        else []) ++
       (if containerArgsContainsParam appSet.extraCommandArgs "enable-progressive-syncs" then
         [{ level := LogLevel.Warn
            field := ".spec.applicationSet.extraCommandArgs = --enable-progressive-syncs"
            message := genericTechPreviewMessage
            unsupported := true }]
        else []) ++
       (if containerEnvVarContainsKeyValue appSet.env "ARGOCD_APPLICATIONSET_CONTROLLER_ENABLE_PROGRESSIVE_SYNCS" "true" then
         [{ level := LogLevel.Warn
            field := ".spec.applicationSet.env[ARGOCD_APPLICATIONSET_CONTROLLER_ENABLE_PROGRESSIVE_SYNCS]=true"
            message := genericTechPreviewMessage
            unsupported := true }]
        else [])
     else []
   | none => []) ++
  (if componentIsEnabled argoCD.spec.controller.enabled then
    (if argoCD.spec.controller.sharding.dynamicScalingEnabled == some true then
      [{ level := LogLevel.Warn
         field := ".spec.controller.sharding.dynamicScalingEnabled"
         message := genericTechPreviewMessage
         unsupported := true }]
     else []) ++
    shardingAlgorithmIssues argoCD.spec.controller.env argoCD.spec.controller.extraCommandArgs
      ["round-robin", "consistent-hashing"]
   else [])

/-- Go map read `m[key]` on a `map[string]string`: the value, or `""`
when absent. -/
def mapGet (m : List (String × String)) (key : String) : String :=
  (List.lookup key m).getD ""

/-- The `directTranslations` table of
`checkForEnvVarsOrParamsWhichOverlapWithCRFields`: extraConfig key and
the preferable ArgoCD CR field. -/
def directTranslations : List (String × String) :=
  [("admin.enabled", ".spec.disableAdmin"),
   ("application.instanceLabelKey", ".spec.applicationInstanceLabelKey"),
   ("application.resourceTrackingMethod", ".spec.resourceTrackingMethod"),
   ("dex.config", ".spec.sso.dex"),
   ("ga.anonymizeusers", ".spec.gaAnonymizeUsers"),
   ("ga.trackingid", ".spec.gaTrackingID"),
   ("help.chatText", ".spec.helpChatText"),
   ("help.chatUrl", ".spec.helpChatURL"),
   ("installationID", ".spec.installationID"),
   ("kustomize.buildOptions", ".spec.kustomizeBuildOptions"),
   ("oidc.config", ".spec.oidcConfig"),
   ("resource.respectRBAC", ".spec.controller.respectRBAC"),
   ("resource.exclusions", ".spec.resourceExclusions"),
   ("resource.inclusions", ".spec.resourceInclusions"),
   ("statusbadge.enabled", ".spec.statusBadgeEnabled"),
   ("timeout.reconciliation", ".spec.controller.appSync"),
   ("ui.bannercontent", ".spec.banner.content"),
   ("ui.bannerpermanent", "spec.banner.permanent"),
   ("ui.bannerposition", ".spec.banner.position"),
   ("ui.bannerurl", ".spec.banner.url"),
   ("users.anonymous.enabled", ".spec.usersAnonymousEnabled")]

/-- The direct-translation loop over the table, reading the extraConfig
map. -/
def directTranslationIssues (extraConfig : List (String × String)) : List issue :=
  directTranslations.filterMap (fun dt =>
    if mapGet extraConfig dt.1 ≠ "" then
      some { level := LogLevel.Warn
             field := ".spec.extraConfig[" ++ dt.1 ++ "]"
             message := "The \x27" ++ dt.1 ++ "\x27 value in extraConfig is supported, but it is preferable to use \x27" ++ dt.2 ++ "\x27 ArgoCD CR field for this." }
    else none)

/-- The three prefix-family loops of
`checkForEnvVarsOrParamsWhichOverlapWithCRFields`: each appends exactly
one issue if any extraConfig key carries the prefix (the Go loop breaks
after the first match, so presence is all that matters). -/
def prefixFamilyIssues (extraConfig : List (String × String)) : List issue :=
  (if extraConfig.any (fun kv => strStartsWith kv.1 "resource.customizations.health.") then
    [{ level := LogLevel.Warn
       field := ".spec.extraConfig[resource.customizations.health.*]"
       message := "The \x27resource.customizations.health.*\x27 values in extraConfig are supported, but it is preferable to use \x27.spec.resourceHealthChecks\x27 ArgoCD CR field for this." }]
   else []) ++
  (if extraConfig.any (fun kv => strStartsWith kv.1 "resource.customizations.actions.") then
    [{ level := LogLevel.Warn
       field := ".spec.extraConfig[resource.customizations.actions.*]"
       message := "The \x27resource.customizations.actions.*\x27 values in extraConfig are supported, but it is preferable to use \x27.spec.resourceActions\x27 ArgoCD CR field for this." }]
   else []) ++
  (if extraConfig.any (fun kv => strStartsWith kv.1 "resource.customizations.ignoreDifferences.") then
    [{ level := LogLevel.Warn
       field := ".spec.extraConfig[resource.customizations.ignoreDifferences.*]"
       message := "The \x27resource.customizations.ignoreDifferences*\x27 values in extraConfig are supported, but it is preferable to use \x27.spec.resourceIgnoreDifferences\x27 ArgoCD CR field for this." }]
   else [])

/-- The appController block of
`checkForEnvVarsOrParamsWhichOverlapWithCRFields` (runs only when the
controller is enabled). -/
def controllerOverlapIssues (appController : ArgoCDApplicationControllerSpec) : List issue :=
  (if containerArgsContainsParam appController.extraCommandArgs "status-processors" then
      [{ level := LogLevel.Warn
         field := ".spec.controller.extraCommandArgs: --status-processors"
         message := "While specifying --status-processors via extraCommandArgs is supported, it is preferable to use \x27.spec.controller.processors.status\x27 ArgoCD CR field for this." }]
     else []) ++
    (if containerEnvVarContainsName appController.env "ARGOCD_APPLICATION_CONTROLLER_STATUS_PROCESSORS" then
      [{ level := LogLevel.Error
         field := ".spec.controller.env[ARGOCD_APPLICATION_CONTROLLER_STATUS_PROCESSORS]"
         message := "Specifying ARGOCD_APPLICATION_CONTROLLER_STATUS_PROCESSORS is not guaranteed to be supported. Use \x27.spec.controller.processors.status\x27 ArgoCD CR field for this." }]
     else []) ++
    (if containerArgsContainsParam appController.extraCommandArgs "operation-processors" then
      [{ level := LogLevel.Warn
         field := ".spec.controller.extraCommandArgs: --operation-processors"
         message := "While specifying --operation-processors via extraCommandArgs is supported, it is preferable to use \x27.spec.controller.processors.operation\x27 ArgoCD CR field for this." }]
     else []) ++
    (if containerEnvVarContainsName appController.env "ARGOCD_APPLICATION_CONTROLLER_OPERATION_PROCESSORS" then
      [{ level := LogLevel.Error
         field := ".spec.controller.env[ARGOCD_APPLICATION_CONTROLLER_OPERATION_PROCESSORS]"
         message := "Specifying ARGOCD_APPLICATION_CONTROLLER_OPERATION_PROCESSORS is not guaranteed to be supported. Use \x27.spec.controller.processors.operation\x27 ArgoCD CR field for this." }]
     else []) ++
    (if containerEnvVarContainsName appController.env "ARGOCD_CONTROLLER_REPLICAS" then
      [{ level := LogLevel.Error
         field := ".spec.controller.env[ARGOCD_CONTROLLER_REPLICAS]"
         message := "Specifying ARGOCD_CONTROLLER_REPLICAS is not supported. Use \x27.spec.controller.sharding.replicas\x27 ArgoCD CR field for this." }]
     else []) ++
    (if containerArgsContainsParam appController.extraCommandArgs "app-resync" then
      [{ level := LogLevel.Warn
         field := ".spec.controller.extraCommandArgs = --app-resync"
         message := "Specifying \x27--app-resync\x27 param is supported, but it is preferable to use \x27.spec.controller.appSync\x27 ArgoCD CR field for this." }]
     else []) ++
    (if containerEnvVarContainsName appController.env "ARGOCD_RECONCILIATION_TIMEOUT" then
      [{ level := LogLevel.Error
         field := ".spec.controller.env[ARGOCD_RECONCILIATION_TIMEOUT]"
         message := "Specifying ARGOCD_RECONCILIATION_TIMEOUT is not supported. Use \x27.spec.controller.appSync\x27 ArgoCD CR field for this." }]
     else [])

/-- The repo block of `checkForEnvVarsOrParamsWhichOverlapWithCRFields`
(runs only when the repo component is explicitly enabled). -/
def repoOverlapIssues (repo : ArgoCDRepoSpec) : List issue :=
  (if containerEnvVarContainsName repo.env "ARGOCD_EXEC_TIMEOUT" then
      [{ level := LogLevel.Warn
         field := ".spec.repo.env[ARGOCD_EXEC_TIMEOUT]"
         message := "Specifying ARGOCD_EXEC_TIMEOUT is supported, but it is preferable to use \x27.spec.repo.execTimeout\x27 ArgoCD CR field for this." }]
     else [])

/-- The server block of `checkForEnvVarsOrParamsWhichOverlapWithCRFields`
(runs only when the server component is enabled). -/
def serverOverlapIssues (server : ArgoCDServerSpec) : List issue :=
  (if containerEnvVarContainsName server.env "ARGOCD_API_SERVER_REPLICAS" then
      [{ level := LogLevel.Error
         field := ".spec.server.env[ARGOCD_API_SERVER_REPLICAS]"
         message := "Specifying ARGOCD_API_SERVER_REPLICAS env is not supported. Instead use ArgoCD CR \x27.spec.server.replicas\x27." }]
   else [])


/-- The applicationSet block of
`checkForEnvVarsOrParamsWhichOverlapWithCRFields` (runs only when the
component is explicitly enabled). -/
def appSetOverlapIssues (appSet : ArgoCDApplicationSet) : List issue :=
  (if containerEnvVarContainsName appSet.env "ARGOCD_APPLICATIONSET_CONTROLLER_NAMESPACES" then
    [{ level := LogLevel.Error
       field := ".spec.applicationSet.env[ARGOCD_APPLICATIONSET_CONTROLLER_NAMESPACES]"
       message := "The \x27ARGOCD_APPLICATIONSET_CONTROLLER_NAMESPACES\x27 environment variable should not be set directly. Use \x27.spec.applicationSet.sourceNamespaces\x27 field instead to enable ApplicationSets in any namespace." }]
   else []) ++
  (if containerArgsContainsParam appSet.extraCommandArgs "applicationset-namespaces" then
    [{ level := LogLevel.Error
       field := ".spec.applicationSet.extraCommandArgs: --applicationset-namespaces"
       message := "The \x27--applicationset-namespaces\x27 argument should not be set directly. Use \x27.spec.applicationSet.sourceNamespaces\x27 field instead to enable ApplicationSets in any namespace." }]
   else [])

/-- `checkForEnvVarsOrParamsWhichOverlapWithCRFields` from `main.go`. -/
def checkForEnvVarsOrParamsWhichOverlapWithCRFields (argoCD : ArgoCD) : List issue :=
  (if argoCD.spec.extraConfig.length > 0 then
    directTranslationIssues argoCD.spec.extraConfig ++
    prefixFamilyIssues argoCD.spec.extraConfig
   else []) ++
  (match argoCD.spec.applicationSet with
   | some appSet =>
     if appSet.enabled == some true then appSetOverlapIssues appSet
     else []
   | none => []) ++
  (if componentIsEnabled argoCD.spec.controller.enabled then
    controllerOverlapIssues argoCD.spec.controller
   else []) ++
  (if argoCD.spec.repo.enabled == some true then
    repoOverlapIssues argoCD.spec.repo
   else []) ++
  (if componentIsEnabled argoCD.spec.server.enabled then
    serverOverlapIssues argoCD.spec.server
   else [])

/-- The extraConfig keys verified to come from `argocd-cmd-params-cm`
and therefore unsupported in `.spec.extraConfig` (from
`checkForIncorrectConfigurations`; the Go code turns this list into a
set before the membership test). -/
def unsupportedExtraConfigKeysFromArgoCDCMDParamsCM : List String :=
  ["controller.operation.processors",
   "controller.status.processors",
   "controller.log.format",
   "controller.log.level",
   "controller.sharding.algorithm",
   "controller.kubectl.parallelism.limit",
   "controller.diff.server.side",
   "server.insecure",
   "server.log.format",
   "server.log.level",
   "server.repo.server.timeout.seconds",
   "server.repo.server.strict.tls",
   "reposerver.log.format",
   "reposerver.log.level",
   "reposerver.parallelism.limit",
   "reposerver.disable.tls",
   "reposerver.repo.cache.expiration",
   "reposerver.default.cache.expiration",
   "reposerver.git.request.timeout",
   "dexserver.log.format",
   "dexserver.log.level",
   "dexserver.disable.tls",
   "applicationsetcontroller.log.format",
   "applicationsetcontroller.log.level",
   "applicationsetcontroller.dryrun",
   "applicationsetcontroller.namespaces",
   "applicationsetcontroller.allowed.scm.providers",
   "applicationsetcontroller.enable.scm.providers",
   "applicationsetcontroller.requeue.after",
   "applicationsetcontroller.status.max.resources.count",
   "notificationscontroller.log.level",
   "notificationscontroller.log.format"]

/-- The extraConfig key-iteration loop of
`checkForIncorrectConfigurations`, in the iteration order of the
association list that represents the map. -/
def unsupportedExtraConfigIssues (extraConfig : List (String × String)) : List issue :=
  extraConfig.filterMap (fun kv =>
    if unsupportedExtraConfigKeysFromArgoCDCMDParamsCM.contains kv.1 then
      some { level := LogLevel.Error
             field := ".spec.extraConfig[" ++ kv.1 ++ "]"
             message := "The \x27" ++ kv.1 ++ "\x27 key is not a valid extraConfig key. This key is from \x27argocd-cmd-params-cm\x27, but extraConfig only supports \x27argocd-cm\x27 keys. Remove this key from extraConfig, and use the corresponding ArgoCD CR field (or env var/param argument) instead." }
    else none)

/-- The clusters-per-shard-without-dynamic-scaling check of
`checkForIncorrectConfigurations`. -/
def shardingMisconfigurationIssues (appController : ArgoCDApplicationControllerSpec) : List issue :=
  if appController.sharding.enabled then
    if appController.sharding.dynamicScalingEnabled == none ||
       appController.sharding.dynamicScalingEnabled == some false then
      if appController.sharding.clustersPerShard ≠ 0 then
        [{ level := LogLevel.Error
           field := ".spec.controller.sharding.clustersPerShard"
           message := "\x27clusterPerShard\x27 is specified, but this value is not used because dynamic scaling is disabled. The \x27clusterPerShard\x27 field is only used when dynamic scaling is ENABLED. Enable dynamic scaling, or remove the \x27clustersPerShard\x27 field." }]
      else []
    else []
  else []

/-- The operation-processors memory heuristic of
`checkForIncorrectConfigurations`.  `Processors.Operation` is an `int32`,
so the multiplication by 35 wraps (`wrap32`); the comparison then happens
at `int64`.  `ResourceList.Memory()` never returns nil (see
`resourceListMemoryValue`), so the Go nil check on it always passes. -/
def operationProcessorsHeuristicIssues (appController : ArgoCDApplicationControllerSpec) : List issue :=
  if appController.processors.operation > 0 then
    let requiredMemoryInMiBs := wrap32 (appController.processors.operation * 35)
    match appController.resources with
    | some resources =>
      match resources.limits with
      | some limits =>
        let memoryLimitInMiBs := Int.tdiv (resourceListMemoryValue limits) (1024 * 1024)
        if requiredMemoryInMiBs > memoryLimitInMiBs then
          [{ level := LogLevel.Warn
             field := ".spec.controller.processors.operation"
             message := "The operation processors value of " ++ toString appController.processors.operation ++ " may require approximately " ++ toString requiredMemoryInMiBs ++ " MiB of memory (as a very rough heuristic) if fully utilized, but the memory limit is only " ++ toString memoryLimitInMiBs ++ " MiB. Consider increasing the memory limit or reducing the number of operation processors. For comparison, the default value for this field is 10." }]
        else []
      | none => []
    | none => []
  else []

/-- The `.spec.cmdParams` allow-list of `checkForIncorrectConfigurations`
(the Go code turns this list into a set before the membership test). -/
def supportedCmdParams : List String :=
  ["controller.resource.health.persist", "server.profile.enabled", "controller.profile.enabled"]

/-- The cmdParams key-iteration loop of
`checkForIncorrectConfigurations`, in the iteration order of the
association list that represents the map. -/
def unsupportedCmdParamsIssues (cmdParams : List (String × String)) : List issue :=
  cmdParams.filterMap (fun kv =>
    if !supportedCmdParams.contains kv.1 then
      some { level := LogLevel.Error
             field := ".spec.cmdParams[" ++ kv.1 ++ "]"
             message := "The cmdParams key \x27" ++ kv.1 ++ "\x27 is not a supported parameter of \x27.spec.cmdParams\x27. It will not affect Argo CD configuration. You likely instead want to either A) use the corresponding value in ArgoCD CR if it exists, or B) use environment variable/container argument to enable the configuration." }
    else none)

/-- `checkForIncorrectConfigurations` from `main.go`. -/
def checkForIncorrectConfigurations (argoCD : ArgoCD) : List issue :=
  (if argoCD.spec.extraConfig.length > 0 then
    unsupportedExtraConfigIssues argoCD.spec.extraConfig
   else []) ++
  (if componentIsEnabled argoCD.spec.controller.enabled then
    shardingMisconfigurationIssues argoCD.spec.controller ++
    operationProcessorsHeuristicIssues argoCD.spec.controller
   else []) ++
  (if argoCD.spec.cmdParams.length > 0 then
    unsupportedCmdParamsIssues argoCD.spec.cmdParams
   else [])

/-- `checkArgoCDStatusField` from `main.go`. -/
def checkArgoCDStatusField (argoCD : ArgoCD) : List issue :=
  (if argoCD.status.phase ≠ "Available" then
    [{ level := LogLevel.Error
       field := ".status.phase"
       message := "The \x27.status.phase\x27 field is not currently available. This implies that one or more Argo CD components are not currently running." }]
   else []) ++
  argoCD.status.conditions.filterMap (fun condition =>
    if condition.condType == "Reconciled" && condition.status ≠ "True" then
      some { level := LogLevel.Error
             field := ".status.conditions[].type = Reconciled"
             message := "The \x27Reconciled\x27 .status.conditions condition is currently not \x27true\x27. This implies the ArgoCD CR has been reconciled by the operator, but not successfully. E.g. an error occured during reconciliation" }
    else none)

/-- `checkForFailingBestPractices` from `main.go`. -/
def checkForFailingBestPractices (argoCD : ArgoCD) : List issue :=
  (if componentIsEnabled argoCD.spec.server.enabled then
    (if argoCD.spec.server.insecure then
      [{ level := LogLevel.Warn
         field := ".spec.server.insecure"
         message := "Argo CD server component is currently in an insecure state." }]
     else [])
   else []) ++
  (match argoCD.spec.argoCDAgent with
   | some argocdAgent =>
     (match argocdAgent.principal with
      | some principal =>
        (match principal.tls with
         | some tls =>
           if tls.insecureGenerate == some true then
             [{ level := LogLevel.Warn
                field := ".spec.argoCDAgent.principal.TLS.insecureGenerate"
                message := "Argo CD Agent principal is generating insecure TLS certificates" }]
           else []
         | none => [])
      | none => []) ++
     (match argocdAgent.agent with
      | some agent =>
        (match agent.tls with
         | some tls =>
           if tls.insecure == some true then
             [{ level := LogLevel.Warn
                field := ".spec.argoCDAgent.agent.tls.insecure"
                message := "Argo CD Agent agent is running in an insecure configuration" }]
           else []
         | none => [])
      | none => [])
   | none => [])

/-! ## Per-object evaluation and sorting -/

/-- The installation state derived by the resolver
(`type clusterInformation struct`).  The four label maps are Go maps
that start out nil (`none`); only the first one is ever initialized by
`acquireInstallConfigurationData`. -/
structure clusterInformation where
  operatorVersion : Option String := none
  operatorInstallNS : String := ""
  clusterScopedNamespaces : List String := []
  namespaceWithManagedByLabel : Option (List (String × String)) := none
  namespaceWithManagedByClusterArgoCDLabel : Option (List (String × String)) := none
  namespaceWithArgoCDApplicationSetManagedByClusterArgoCDLabel : Option (List (String × String)) := none
  namespaceWithArgoCDNotificationsManagedByClusterArgoCDLabel : Option (List (String × String)) := none
deriving DecidableEq, Repr

/-- `checkIndividualArgoCDCR` from `main.go`: the fixed, ordered battery
of rule functions, their issues concatenated in call order.  (The Go
rules append to a shared slice through a pointer; none of them reads
`clusterInfo`, which is reflected here by the parameter being unused.) -/
def checkIndividualArgoCDCR (argoCD : ArgoCD) (_clusterInfo : clusterInformation) : List issue :=
  checkArgoCDCRForDeprecatedFields argoCD ++
  checkArgoCDCRForUnsupportedCustomImages argoCD ++
  checkForTechPreviewOrExperimentalFeatures argoCD ++
  checkForEnvVarsOrParamsWhichOverlapWithCRFields argoCD ++
  checkForIncorrectConfigurations argoCD ++
  checkArgoCDStatusField argoCD ++
  checkForFailingBestPractices argoCD

/-- The comparator handed to `sort.Slice` in `sortIssuesByField`
(`issues[i].field < issues[j].field`), turned into the non-strict `le`
a sorting routine establishes: `le a b` iff `b` is not required to come
before `a`. -/
def issueFieldLe (a b : issue) : Bool :=
  !goStringLt b.field a.field

/-- `sortIssuesByField` from `main.go`: `sort.Slice` with the
field-comparison closure.  `sort.Slice` is specified to reorder the
slice so that the `less` function is respected; this models that
contract with merge sort. -/
def sortIssuesByField (issues : List issue) : List issue :=
  issues.mergeSort issueFieldLe

/-! ## The installation-state resolver (`acquireInstallConfigurationData`) -/

/-- One data source together with the outcome of each list/get call the
resolver makes against it (`clients.AbstractK8sClient` plus the cluster
content behind it).  `Except.error` in a field models the client call
returning a Go error. -/
structure DataSource where
  subscriptionList : Except String (List Subscription) := .ok []
  incompleteControlPlaneData : Bool := false
  clusterServiceVersionGet : String → String → Except String ClusterServiceVersion := fun _ _ => .error ""
  namespaceList : Except String (List K8sNamespace) := .ok []
  argoCDList : Except String (List ArgoCD) := .ok []

/-- The subscription-selection loop of `acquireInstallConfigurationData`:
skip entries with nil spec or a different package; finding a second
match is Fatal (`Except.error` carries the fatal entry). -/
def selectGitopsSubscription : List Subscription → Option Subscription → Except entry (Option Subscription)
  | [], acc => .ok acc
  | sub :: rest, acc =>
    match sub.spec with
    | none => selectGitopsSubscription rest acc
    | some sp =>
      if sp.package ≠ "openshift-gitops-operator" then
        selectGitopsSubscription rest acc
      else
        match acc with
        | some gitopsSubscription =>
          .error { level := LogLevel.Fatal
                   message := "unexpected number of gitops subscriptions found: one in \x27" ++ (gitopsSubscription.ns ++ "/" ++ gitopsSubscription.name) ++ "\x27 and one in \x27" ++ (sub.ns ++ "/" ++ sub.name) ++ "\x27" }
        | none => selectGitopsSubscription rest (some sub)

/-- Whether one Subscription is selected by the resolver loop: a
non-nil spec whose package is the gitops package identifier. -/
def isGitopsMatch (sub : Subscription) : Bool :=
  match sub.spec with
  | some sp => sp.package == "openshift-gitops-operator"
  | none => false

/-- The `ARGOCD_CLUSTER_CONFIG_NAMESPACES` value parser: split on
commas, trim whitespace, drop empties. -/
def parseClusterConfigNamespacesValue (value : String) : List String :=
  (goSplitComma value).filterMap (fun ns =>
    let trimmed := goTrimSpace ns
    if trimmed ≠ "" then some trimmed else none)

/-- The env-scanning loop over `.spec.config.env`: collect the parsed
namespaces of every `ARGOCD_CLUSTER_CONFIG_NAMESPACES` entry in order,
and count the occurrences of the key. -/
def scanClusterConfigNamespacesEnv : List EnvVar → List String × Nat
  | [] => ([], 0)
  | envVar :: rest =>
    let tail := scanClusterConfigNamespacesEnv rest
    if envVar.name == "ARGOCD_CLUSTER_CONFIG_NAMESPACES" then
      (parseClusterConfigNamespacesValue envVar.value ++ tail.1, tail.2 + 1)
    else tail

/-- Go map assignment `m[key] = val` on a `map[string]string`
association list: replace the binding if present, else append. -/
def assocPut (m : List (String × String)) (key val : String) : List (String × String) :=
  if (List.lookup key m).isSome then
    m.map (fun p => if p.1 == key then (key, val) else p)
  else m ++ [(key, val)]

/-- Assignment into one of the `clusterInformation` label maps.  Go
panics on assignment to a nil map; the panic is the `Except.error`. -/
def mapAssign (m : Option (List (String × String))) (key val : String) :
    Except String (Option (List (String × String))) :=
  match m with
  | none => .error "assignment to entry in nil map"
  | some l => .ok (some (assocPut l key val))

/-- One step of the namespace-label loop: conditionally assign into one
label map when the namespace carries the label. -/
def labelStep (m : Option (List (String × String))) (labelKey : String)
    (nsp : K8sNamespace) : Except String (Option (List (String × String))) :=
  match List.lookup labelKey nsp.labels with
  | some val => mapAssign m nsp.name val
  | none => .ok m

/-- The body of the namespace loop of `acquireInstallConfigurationData`:
the four label checks of `main.go` lines 321-338, in order.  A Go panic
(nil-map assignment) aborts the loop through `Except.error`. -/
def applyNamespaceLabels (ci : clusterInformation) (nsp : K8sNamespace) :
    Except String clusterInformation :=
  match labelStep ci.namespaceWithManagedByLabel argoCDManagedByLabel nsp with
  | .error e => .error e
  | .ok m1 =>
    match labelStep ci.namespaceWithManagedByClusterArgoCDLabel
        argoCDManagedByClusterArgoCDLabel nsp with
    | .error e => .error e
    | .ok m2 =>
      match labelStep ci.namespaceWithArgoCDApplicationSetManagedByClusterArgoCDLabel
          argoCDApplicationSetManagedByClusterArgoCDLabel nsp with
      | .error e => .error e
      | .ok m3 =>
        match labelStep ci.namespaceWithArgoCDNotificationsManagedByClusterArgoCDLabel
            argoCDNotificationsManagedByClusterArgoCDLabel nsp with
        | .error e => .error e
        | .ok m4 =>
          .ok { ci with
                namespaceWithManagedByLabel := m1
                namespaceWithManagedByClusterArgoCDLabel := m2
                namespaceWithArgoCDApplicationSetManagedByClusterArgoCDLabel := m3
                namespaceWithArgoCDNotificationsManagedByClusterArgoCDLabel := m4 }

/-- The namespace loop itself. -/
def applyAllNamespaceLabels (ci : clusterInformation) :
    List K8sNamespace → Except String clusterInformation
  | [] => .ok ci
  | nsp :: rest =>
    match applyNamespaceLabels ci nsp with
    | .error e => .error e
    | .ok ci2 => applyAllNamespaceLabels ci2 rest

/-- `acquireInstallConfigurationData` from `main.go`, as a function of
the data source.  A normal Go return is `.ok (clusterInformation,
entries)`; a Go runtime panic is `.error`. -/
def acquireInstallConfigurationData (ds : DataSource) :
    Except String (clusterInformation × List entry) :=
  match ds.subscriptionList with
  | .error err =>
    if ds.incompleteControlPlaneData then
      .ok ({}, [{ level := LogLevel.Warn
                  message := "Unable to locate operator install Subscription. BUT, this may be expected if because the cluster data is incomplete (for example, if using must-gather, the must-gather may not contain full cluster output of all relevant namespaces). Error: " ++ err }])
    else
      .ok ({}, [{ level := LogLevel.Error
                  message := "Unable to locate operator install Subscription in any namespace. Error: " ++ err }])
  | .ok subscriptionItems =>
    match selectGitopsSubscription subscriptionItems none with
    | .error fatalEntry => .ok ({}, [fatalEntry])
    | .ok none =>
      if ds.incompleteControlPlaneData then
        .ok ({}, [{ level := LogLevel.Warn
                    message := "Subscription could not be located, but this may be because cluster data is incomplete (for example, namespace was not included in what was exported to must-gather)" }])
      else
        .ok ({}, [{ level := LogLevel.Error
                    message := "Subscription could not be located" }])
    | .ok (some gitopsSubscription) =>
      let resCI1 : clusterInformation := { operatorInstallNS := gitopsSubscription.ns }
      let entries1 : List entry :=
        if gitopsSubscription.ns ≠ "openshift-gitops-operator" then
          [{ level := LogLevel.Warn
             message := "operator was installed into an unexpected namespace \x27" ++ gitopsSubscription.ns ++ "\x27. The default is \x27openshift-gitops-operator\x27" }]
        else []
      let currentCSV := gitopsSubscription.status.currentCSV
      let installedCSV := gitopsSubscription.status.installedCSV
      if installedCSV ≠ currentCSV then
        .ok (resCI1, entries1 ++
          [{ level := LogLevel.Error
             message := "the \x27.status.currentCSV\x27 field of operator != \x27.status.installedCSV\x27 of operator, indicating installation may be in progress or stalled." }])
      else
        match gitopsSubscription.spec with
        | none => .error "invalid memory address or nil pointer dereference"
        | some gitopsSpec =>
          let scanned :=
            match gitopsSpec.config with
            | some config => scanClusterConfigNamespacesEnv config.env
            | none => (["openshift-gitops"], 0)
          let resCI2 : clusterInformation :=
            { resCI1 with clusterScopedNamespaces := scanned.1 }
          if gitopsSpec.config.isSome && scanned.2 > 1 then
            .ok (resCI2, entries1 ++
              [{ level := LogLevel.Fatal
                 message := "multiple ARGOCD_CLUSTER_CONFIG_NAMESPACES env entries were found in Subscription\x27s .spec.config.env, which is not valid" }])
          else
            match ds.clusterServiceVersionGet gitopsSubscription.ns installedCSV with
            | .error err =>
              .ok (resCI2, entries1 ++
                [{ level := if ds.incompleteControlPlaneData then LogLevel.Error else LogLevel.Fatal
                   message := "Subscription exists, and points to ClusterServiceVersion, but ClusterServiceVersion could not be retrieved: " ++ err }])
            | .ok csv =>
              if csv.phase ≠ "Succeeded" ∨ csv.reason ≠ "InstallSucceeded" then
                .ok (resCI2, entries1 ++
                  [{ level := LogLevel.Error
                     message := "unexpected values found in ClusterServiceVersion: .status.phase: " ++ csv.phase ++ ", .status.reason: " ++ csv.reason }])
              else
                let resCI3 : clusterInformation :=
                  { resCI2 with operatorVersion := some csv.version }
                match ds.namespaceList with
                | .error err =>
                  .ok (resCI3, entries1 ++
                    [{ level := LogLevel.Fatal
                       message := "unable to list Namespaces: " ++ err }])
                | .ok namespaceItems =>
                  let resCI4 : clusterInformation :=
                    { resCI3 with namespaceWithManagedByLabel := some [] }
                  match applyAllNamespaceLabels resCI4 namespaceItems with
                  | .error panicMessage => .error panicMessage
                  | .ok resCI5 => .ok (resCI5, entries1)

/-! ## `runChecks` -/

/-- What happens after the resolution entries are reported. -/
inductive PostResolutionOutcome where
  | stoppedOnFatal
  | listArgoCDsFailed (err : String)
  | noArgoCDsFound
  | objectReports (reports : List (String × String × List issue))
deriving DecidableEq

/-- The observable outcome of one `runChecks` invocation: the resolution
entries it reports, then either an early stop or the per-object sorted
issue reports (namespace, name, issues). -/
structure RunChecksOutput where
  resolutionEntries : List entry
  outcome : PostResolutionOutcome

/-- `runChecks` from `main.go`.  The Fatal check happens after the
entries are output and before the ArgoCD list call; `failWithError`
terminations (list failure, zero ArgoCDs) are the corresponding early
outcomes.  A panic escaping `acquireInstallConfigurationData` is
propagated as `.error`. -/
def runChecks (ds : DataSource) : Except String RunChecksOutput :=
  match acquireInstallConfigurationData ds with
  | .error panicMessage => .error panicMessage
  | .ok (clusterInfo, entries) =>
    if entryListContainsFatal entries then
      .ok { resolutionEntries := entries, outcome := .stoppedOnFatal }
    else
      match ds.argoCDList with
      | .error err => .ok { resolutionEntries := entries, outcome := .listArgoCDsFailed err }
      | .ok argoCDItems =>
        if argoCDItems.length == 0 then
          .ok { resolutionEntries := entries, outcome := .noArgoCDsFound }
        else
          .ok { resolutionEntries := entries
                outcome := .objectReports (argoCDItems.map (fun argoCD =>
                  (argoCD.ns, argoCD.name,
                   sortIssuesByField (checkIndividualArgoCDCR argoCD clusterInfo)))) }

/-! ## Concrete cluster data used by the witnesses and counterexamples -/

/-- A healthy gitops Subscription in the default namespace. -/
def gitopsSubscriptionOK : Subscription :=
  { name := "gitops-sub"
    ns := "openshift-gitops-operator"
    spec := some { package := "openshift-gitops-operator", config := none }
    status := { currentCSV := "openshift-gitops-operator.v1.19.0"
                installedCSV := "openshift-gitops-operator.v1.19.0" } }

/-- A ClusterServiceVersion in the succeeded state. -/
def csvOK : ClusterServiceVersion :=
  { phase := "Succeeded", reason := "InstallSucceeded", version := "1.19.0" }

/-- A data source on which every resolver step succeeds, but one listed
namespace carries the managed-by-cluster-argocd label, driving the
resolver into the assignment to the never-initialized second label map. -/
def dsNilMapPanic : DataSource :=
  { subscriptionList := .ok [gitopsSubscriptionOK]
    incompleteControlPlaneData := false
    clusterServiceVersionGet := fun _ _ => .ok csvOK
    namespaceList := .ok [{ name := "team-a"
                            labels := [(argoCDManagedByClusterArgoCDLabel, "openshift-gitops")] }] }

/-- An incomplete (must-gather) data source whose Subscription list call
fails. -/
def dsListFailIncomplete : DataSource :=
  { subscriptionList := .error "connection refused"
    incompleteControlPlaneData := true }

/-- A complete (live-cluster) data source whose Subscription list call
fails. -/
def dsListFailComplete : DataSource :=
  { subscriptionList := .error "connection refused"
    incompleteControlPlaneData := false }

/-- Two Subscriptions that both match the gitops package identifier. -/
def twoGitopsSubscriptions : List Subscription :=
  [{ name := "sub-a", ns := "ns-a"
     spec := some { package := "openshift-gitops-operator", config := none }
     status := {} },
   { name := "sub-b", ns := "ns-b"
     spec := some { package := "openshift-gitops-operator", config := none }
     status := {} }]

/-- A data source listing two gitops Subscriptions. -/
def dsTwoSubscriptions : DataSource :=
  { subscriptionList := .ok twoGitopsSubscriptions
    incompleteControlPlaneData := false }

/-- A data source that resolves fully but whose namespace list call
fails, producing a Fatal resolution entry (used to witness the
stop-on-Fatal behaviour of `runChecks`). -/
def dsNamespaceListFails : DataSource :=
  { subscriptionList := .ok [gitopsSubscriptionOK]
    incompleteControlPlaneData := false
    clusterServiceVersionGet := fun _ _ => .ok csvOK
    namespaceList := .error "the server could not list namespaces"
    argoCDList := .ok [{ name := "argocd", ns := "openshift-gitops" }] }

/-- A Subscription whose `.spec.config` section is present but whose env
list carries no `ARGOCD_CLUSTER_CONFIG_NAMESPACES` entry. -/
def gitopsSubscriptionEmptyConfig : Subscription :=
  { name := "gitops-sub"
    ns := "openshift-gitops-operator"
    spec := some { package := "openshift-gitops-operator"
                   config := some { env := [{ name := "HTTP_PROXY", value := "http://proxy:3128" }] } }
    status := { currentCSV := "openshift-gitops-operator.v1.19.0"
                installedCSV := "openshift-gitops-operator.v1.19.0" } }

/-- A fully succeeding data source whose Subscription has a config
section without the scoping env var: the resolver completes with an
empty scope list and no default. -/
def dsEmptyConfigSection : DataSource :=
  { subscriptionList := .ok [gitopsSubscriptionEmptyConfig]
    incompleteControlPlaneData := false
    clusterServiceVersionGet := fun _ _ => .ok csvOK
    namespaceList := .ok [{ name := "openshift-gitops", labels := [] }] }

/-- A Subscription configuring two explicit cluster-scoped namespaces. -/
def gitopsSubscriptionTwoScopes : Subscription :=
  { name := "gitops-sub"
    ns := "openshift-gitops-operator"
    spec := some { package := "openshift-gitops-operator"
                   config := some { env := [{ name := "ARGOCD_CLUSTER_CONFIG_NAMESPACES"
                                              value := "openshift-gitops, argocd-prod" }] } }
    status := { currentCSV := "openshift-gitops-operator.v1.19.0"
                installedCSV := "openshift-gitops-operator.v1.19.0" } }

/-- A fully succeeding data source with an explicit scoping env var. -/
def dsTwoScopes : DataSource :=
  { subscriptionList := .ok [gitopsSubscriptionTwoScopes]
    incompleteControlPlaneData := false
    clusterServiceVersionGet := fun _ _ => .ok csvOK
    namespaceList := .ok [{ name := "openshift-gitops", labels := [] }] }

/-- An ArgoCD whose status phase is Available and which sets two custom
image fields, producing a two-element, already-field-sorted issue list. -/
def argoCDTwoImages : ArgoCD :=
  { spec := { applicationSet := some { image := "quay.io/appset:1" }
              redis := { image := "quay.io/redis:1" } }
    status := { phase := "Available" } }

/-- extraConfig contents holding two keys from the
`argocd-cmd-params-cm` deny-list, in one iteration order... -/
def extraConfigOrderA : List (String × String) :=
  [("controller.log.level", "debug"), ("server.insecure", "true")]

/-- ...and the same map contents in the other iteration order. -/
def extraConfigOrderB : List (String × String) :=
  [("server.insecure", "true"), ("controller.log.level", "debug")]

/-- The two-key map presented in iteration order A. -/
def argoCDExtraConfigOrderA : ArgoCD :=
  { spec := { extraConfig := extraConfigOrderA }, status := { phase := "Available" } }

/-- The two-key map presented in iteration order B. -/
def argoCDExtraConfigOrderB : ArgoCD :=
  { spec := { extraConfig := extraConfigOrderB }, status := { phase := "Available" } }

/-- The field path of the operation-processors heuristic issue. -/
def operationProcessorsFieldPath : String := ".spec.controller.processors.operation"

/-- 512 MiB expressed in bytes, as `Quantity.Value()` returns it. -/
def bytes512MiB : Int := 536870912

/-- The C9 scenario object: operation processors 20, memory limit
512 MiB. -/
def argoCDProcessors20Limit512 : ArgoCD :=
  { spec := { controller := { processors := { operation := 20 }
                              resources := some { limits := some [("memory", bytes512MiB)] } } } }

/-- An object whose operation-processor count makes the 32-bit
multiplication by 35 wrap around: 61356676 * 35 = 2147483660 > 2^31-1. -/
def argoCDProcessorsOverflow : ArgoCD :=
  { spec := { controller := { processors := { operation := 61356676 }
                              resources := some { limits := some [("memory", bytes512MiB)] } } } }

/-- The issue the memory heuristic produces for operation-processor
count 20 under a 512 MiB limit: 20 x 35 = 700 MiB estimated, message
carrying both 700 and 512. -/
def operationProcessors20Issue : issue :=
  { level := LogLevel.Warn
    field := ".spec.controller.processors.operation"
    message := "The operation processors value of 20 may require approximately 700 MiB of memory (as a very rough heuristic) if fully utilized, but the memory limit is only 512 MiB. Consider increasing the memory limit or reducing the number of operation processors. For comparison, the default value for this field is 10." }

/-- An applicationSet section with `enabled` unset but every
tech-preview and shadowed setting present. -/
def appSetEnabledUnset : ArgoCDApplicationSet :=
  { image := ""
    enabled := none
    sourceNamespaces := ["other-ns"]
    extraCommandArgs := ["--enable-progressive-syncs", "--applicationset-namespaces=foo"]
    env := [{ name := "ARGOCD_APPLICATIONSET_CONTROLLER_ENABLE_PROGRESSIVE_SYNCS", value := "true" },
            { name := "ARGOCD_APPLICATIONSET_CONTROLLER_NAMESPACES", value := "foo" }] }

/-- The C10 witness object. -/
def argoCDAppSetEnabledUnset : ArgoCD :=
  { spec := { applicationSet := some appSetEnabledUnset } }

/-! ## Order theory of the field comparator -/

theorem charListLt_irrefl (l : List Char) : charListLt l l = false := by
  induction l with
  | nil => rfl
  | cons a as ih => simp [charListLt, ih]

theorem charListLt_asymm : ∀ (a b : List Char),
    charListLt a b = true → charListLt b a = false
  | [], [] => by simp [charListLt]
  | [], _ :: _ => by simp [charListLt]
  | _ :: _, [] => by simp [charListLt]
  | x :: xs, y :: ys => by
    simp only [charListLt]
    intro h
    by_cases h1 : x.toNat < y.toNat
    · simp [h1, Nat.lt_asymm h1]
    · by_cases h2 : y.toNat < x.toNat
      · simp [h1, h2] at h
      · simp only [h1, h2, if_false] at h ⊢
        exact charListLt_asymm xs ys h

theorem charListLt_trans : ∀ (a b c : List Char),
    charListLt a b = true → charListLt b c = true → charListLt a c = true
  | [], [], _ => by simp [charListLt]
  | [], _ :: _, [] => by simp [charListLt]
  | [], _ :: _, _ :: _ => by simp [charListLt]
  | _ :: _, [], _ => by simp [charListLt]
  | _ :: _, _ :: _, [] => by simp [charListLt]
  | x :: xs, y :: ys, z :: zs => by
    simp only [charListLt]
    intro h1 h2
    by_cases hxy : x.toNat < y.toNat
    · by_cases hyz : y.toNat < z.toNat
      · simp [Nat.lt_trans hxy hyz]
      · by_cases hzy : z.toNat < y.toNat
        · simp [hyz, hzy] at h2
        · simp [show x.toNat < z.toNat by omega]
    · by_cases hyx : y.toNat < x.toNat
      · simp [hxy, hyx] at h1
      · simp only [hxy, hyx, if_false] at h1
        by_cases hyz : y.toNat < z.toNat
        · simp [show x.toNat < z.toNat by omega]
        · by_cases hzy : z.toNat < y.toNat
          · simp [hyz, hzy] at h2
          · simp only [hyz, hzy, if_false] at h2
            simp only [show ¬ x.toNat < z.toNat by omega,
              show ¬ z.toNat < x.toNat by omega, if_false]
            exact charListLt_trans xs ys zs h1 h2

/-- Comparison totality of the lexicographic order: when `a < c`, any
`b` satisfies `a < b` or `b < c`. -/
theorem charListLt_lt_or_lt : ∀ (a b c : List Char),
    charListLt a c = true → charListLt a b = true ∨ charListLt b c = true
  | [], [], c => fun h => Or.inr h
  | [], _ :: _, _ => fun _ => Or.inl (by simp [charListLt])
  | _ :: _, b, [] => fun h => by simp [charListLt] at h
  | x :: xs, [], z :: zs => fun _ => Or.inr (by simp [charListLt])
  | x :: xs, y :: ys, z :: zs => by
    simp only [charListLt]
    intro h
    by_cases hxy : x.toNat < y.toNat
    · exact Or.inl (by simp [hxy])
    · by_cases hyx : y.toNat < x.toNat
      · -- y < x, and from h we get x ≤ z, hence y < z
        refine Or.inr ?_
        by_cases hxz : x.toNat < z.toNat
        · simp [show y.toNat < z.toNat by omega]
        · by_cases hzx : z.toNat < x.toNat
          · simp [hxz, hzx] at h
          · simp [show y.toNat < z.toNat by omega]
      · -- x and y agree on the head
        by_cases hxz : x.toNat < z.toNat
        · exact Or.inr (by simp [show y.toNat < z.toNat by omega])
        · by_cases hzx : z.toNat < x.toNat
          · simp [hxz, hzx] at h
          · simp only [hxz, hzx, if_false] at h
            rcases charListLt_lt_or_lt xs ys zs h with htail | htail
            · exact Or.inl (by simp only [hxy, hyx, if_false]; exact htail)
            · exact Or.inr (by
                simp only [show ¬ y.toNat < z.toNat by omega,
                  show ¬ z.toNat < y.toNat by omega, if_false]
                exact htail)

theorem goStringLt_irrefl (s : String) : goStringLt s s = false :=
  charListLt_irrefl s.data

theorem issueFieldLe_trans (a b c : issue) :
    issueFieldLe a b = true → issueFieldLe b c = true → issueFieldLe a c = true := by
  intro h1 h2
  simp only [issueFieldLe, goStringLt, Bool.not_eq_true'] at h1 h2 ⊢
  by_contra h3
  rw [Bool.not_eq_false] at h3
  rcases charListLt_lt_or_lt c.field.data b.field.data a.field.data h3 with h | h
  · rw [h] at h2
    exact absurd h2 (by simp)
  · rw [h] at h1
    exact absurd h1 (by simp)

theorem issueFieldLe_total (a b : issue) :
    (issueFieldLe a b || issueFieldLe b a) = true := by
  simp only [issueFieldLe, goStringLt, Bool.or_eq_true, Bool.not_eq_true']
  rcases h : charListLt b.field.data a.field.data with _ | _
  · exact Or.inl rfl
  · exact Or.inr (charListLt_asymm _ _ h)

/-- Elements of the issue list for one object that share a field path
compare `le` in both directions. -/
theorem issueFieldLe_of_field_eq {a b : issue} (h : a.field = b.field) :
    issueFieldLe a b = true := by
  simp [issueFieldLe, h, goStringLt, charListLt_irrefl]

/-! ## Sortedness and stability of `sortIssuesByField` -/

theorem sortIssuesByField_pairwise (l : List issue) :
    List.Pairwise (fun a b => issueFieldLe a b = true) (sortIssuesByField l) :=
  List.sorted_mergeSort issueFieldLe_trans issueFieldLe_total l

theorem sortIssuesByField_perm (l : List issue) : (sortIssuesByField l).Perm l :=
  List.mergeSort_perm l issueFieldLe

/-- Stability of `sortIssuesByField` expressed through filtering: the
subsequence of issues carrying any one field path is exactly the
pre-sort subsequence, in the same order. -/
theorem sortIssuesByField_filter_field (l : List issue) (s : String) :
    (sortIssuesByField l).filter (fun a => a.field == s) =
      l.filter (fun a => a.field == s) := by
  have hpair : List.Pairwise (fun a b => issueFieldLe a b = true)
      (l.filter (fun a => a.field == s)) := by
    refine List.pairwise_of_forall_mem_list ?_
    intro a ha b hb
    have ha2 := (List.mem_filter.mp ha).2
    have hb2 := (List.mem_filter.mp hb).2
    exact issueFieldLe_of_field_eq (by
      have h1 : a.field = s := by simpa using ha2
      have h2 : b.field = s := by simpa using hb2
      rw [h1, h2])
  have hsub : (l.filter (fun a => a.field == s)).Sublist (sortIssuesByField l) :=
    List.sublist_mergeSort issueFieldLe_trans issueFieldLe_total hpair (List.filter_sublist l)
  have hsub2 : ((l.filter (fun a => a.field == s)).filter (fun a => a.field == s)).Sublist
      ((sortIssuesByField l).filter (fun a => a.field == s)) :=
    hsub.filter _
  rw [List.filter_filter] at hsub2
  simp only [Bool.and_self] at hsub2
  have hlen : ((sortIssuesByField l).filter (fun a => a.field == s)).length =
      (l.filter (fun a => a.field == s)).length :=
    ((sortIssuesByField_perm l).filter _).length_eq
  exact (hsub2.eq_of_length hlen.symm).symm

/-- C3.  For every result of evaluating one configuration object, after
the final sort: any issue whose field path is lexicographically smaller
than another issue's field path appears before it, and the issues
carrying any one field path appear in exactly their insertion
(rule-execution) order — the sort is stable. -/
theorem claim_sort_law_and_stability (argoCD : ArgoCD) (ci : clusterInformation) :
    (∀ (i j : Nat)
       (hi : i < (sortIssuesByField (checkIndividualArgoCDCR argoCD ci)).length)
       (hj : j < (sortIssuesByField (checkIndividualArgoCDCR argoCD ci)).length),
       goStringLt (sortIssuesByField (checkIndividualArgoCDCR argoCD ci))[i].field
         (sortIssuesByField (checkIndividualArgoCDCR argoCD ci))[j].field = true →
       i < j) ∧
    (∀ s : String,
       (sortIssuesByField (checkIndividualArgoCDCR argoCD ci)).filter (fun a => a.field == s) =
         (checkIndividualArgoCDCR argoCD ci).filter (fun a => a.field == s)) := by
  constructor
  · intro i j hi hj hlt
    by_contra hij
    have hpair := List.pairwise_iff_getElem.mp
      (sortIssuesByField_pairwise (checkIndividualArgoCDCR argoCD ci))
    rcases Nat.lt_or_ge j i with hji | hji
    · have hle := hpair j i hj hi hji
      simp only [issueFieldLe] at hle
      rw [Bool.not_eq_true'] at hle
      rw [hle] at hlt
      exact absurd hlt (by simp)
    · have heq : i = j := by omega
      subst heq
      rw [goStringLt_irrefl] at hlt
      exact absurd hlt (by simp)
  · intro s
    exact sortIssuesByField_filter_field (checkIndividualArgoCDCR argoCD ci) s

/-- Witness for C3 at the concrete two-issue object: the sort law places
index 0 before index 1, and the redis-image issues are exactly the
pre-sort ones. -/
theorem claim_sort_law_and_stability_witness :
    (0 : Nat) < 1 ∧
    (sortIssuesByField (checkIndividualArgoCDCR argoCDTwoImages {})).filter
        (fun a => a.field == ".spec.redis.image") =
      (checkIndividualArgoCDCR argoCDTwoImages {}).filter
        (fun a => a.field == ".spec.redis.image") := by
  have hsorted : List.Pairwise (fun a b => issueFieldLe a b = true)
      (checkIndividualArgoCDCR argoCDTwoImages {}) := by
    rw [show checkIndividualArgoCDCR argoCDTwoImages {} =
      [customImageIssue ".spec.applicationSet.image", customImageIssue ".spec.redis.image"] from rfl]
    refine List.Pairwise.cons ?_ (List.pairwise_singleton _ _)
    intro b hb
    rw [List.mem_singleton.mp hb]
    decide
  have hrw : sortIssuesByField (checkIndividualArgoCDCR argoCDTwoImages {}) =
      checkIndividualArgoCDCR argoCDTwoImages {} :=
    List.mergeSort_of_sorted hsorted
  have h := (claim_sort_law_and_stability argoCDTwoImages {}).1
  rw [hrw] at h
  exact ⟨h 0 1 (by decide) (by decide) (by decide),
    (claim_sort_law_and_stability argoCDTwoImages {}).2 ".spec.redis.image"⟩

/-! ## C1: the resolver can raise (nil-map panic) -/

/-- C1 (code bug).  The specification promises the resolver never
raises, yet on a data source where every lookup succeeds and one listed
namespace carries the managed-by-cluster-argocd label, the embedded
resolver reaches the Go assignment into the never-initialized
`namespaceWithManagedByClusterArgoCDLabel` nil map (`main.go` line 328;
only `namespaceWithManagedByLabel` is initialized, at line 319) and
panics. -/
theorem claim_resolver_raises_on_nil_map :
    acquireInstallConfigurationData dsNilMapPanic = .error "assignment to entry in nil map" := by
  rfl

/-! ## C2: conditional severity of the Subscription list failure -/

/-- C2.  When the subscription-equivalent list call fails, the resolver
stops with exactly one entry whose severity is Warn on an incomplete
data source and Error on a complete one, and with every field of the
installation state left unset. -/
theorem claim_subscription_list_failure_severity (ds : DataSource) (err : String)
    (h : ds.subscriptionList = .error err) :
    acquireInstallConfigurationData ds =
      .ok ({ operatorVersion := none, operatorInstallNS := "",
             clusterScopedNamespaces := [], namespaceWithManagedByLabel := none,
             namespaceWithManagedByClusterArgoCDLabel := none,
             namespaceWithArgoCDApplicationSetManagedByClusterArgoCDLabel := none,
             namespaceWithArgoCDNotificationsManagedByClusterArgoCDLabel := none },
           [{ level := if ds.incompleteControlPlaneData then LogLevel.Warn else LogLevel.Error
              message :=
                if ds.incompleteControlPlaneData then
                  "Unable to locate operator install Subscription. BUT, this may be expected if because the cluster data is incomplete (for example, if using must-gather, the must-gather may not contain full cluster output of all relevant namespaces). Error: " ++ err
                else
                  "Unable to locate operator install Subscription in any namespace. Error: " ++ err }]) := by
  unfold acquireInstallConfigurationData
  rw [h]
  rcases hf : ds.incompleteControlPlaneData with _ | _ <;> simp [hf]

set_option maxRecDepth 4096 in
/-- Witness for C2 at two concrete failing data sources, one incomplete
and one complete. -/
theorem claim_subscription_list_failure_severity_witness :
    acquireInstallConfigurationData dsListFailIncomplete =
      .ok ({}, [{ level := LogLevel.Warn
                  message := "Unable to locate operator install Subscription. BUT, this may be expected if because the cluster data is incomplete (for example, if using must-gather, the must-gather may not contain full cluster output of all relevant namespaces). Error: connection refused" }]) ∧
    acquireInstallConfigurationData dsListFailComplete =
      .ok ({}, [{ level := LogLevel.Error
                  message := "Unable to locate operator install Subscription in any namespace. Error: connection refused" }]) := by
  exact ⟨claim_subscription_list_failure_severity dsListFailIncomplete "connection refused" rfl,
    claim_subscription_list_failure_severity dsListFailComplete "connection refused" rfl⟩

/-! ## C6: two matching subscriptions are Fatal -/

theorem selectGitopsSubscription_some_fatal :
    ∀ (l : List Subscription) (prev : Subscription),
    l.filter isGitopsMatch ≠ [] →
    ∃ e, selectGitopsSubscription l (some prev) = .error e ∧ e.level = LogLevel.Fatal := by
  intro l
  induction l with
  | nil => intro prev h; simp at h
  | cons s rest ih =>
    intro prev h
    cases hspec : s.spec with
    | none =>
      have hm : isGitopsMatch s = false := by simp [isGitopsMatch, hspec]
      rw [List.filter_cons_of_neg (by simp [hm])] at h
      simpa [selectGitopsSubscription, hspec] using ih prev h
    | some sp =>
      by_cases hpkg : sp.package = "openshift-gitops-operator"
      · exact ⟨{ level := LogLevel.Fatal
                 message := "unexpected number of gitops subscriptions found: one in \x27" ++ (prev.ns ++ "/" ++ prev.name) ++ "\x27 and one in \x27" ++ (s.ns ++ "/" ++ s.name) ++ "\x27" },
               by simp [selectGitopsSubscription, hspec, hpkg], rfl⟩
      · have hm : isGitopsMatch s = false := by simp [isGitopsMatch, hspec, hpkg]
        rw [List.filter_cons_of_neg (by simp [hm])] at h
        simpa [selectGitopsSubscription, hspec, hpkg] using ih prev h

theorem selectGitopsSubscription_two_fatal :
    ∀ (l : List Subscription), 2 ≤ (l.filter isGitopsMatch).length →
    ∃ e, selectGitopsSubscription l none = .error e ∧ e.level = LogLevel.Fatal := by
  intro l
  induction l with
  | nil => intro h; simp at h
  | cons s rest ih =>
    intro h
    cases hspec : s.spec with
    | none =>
      have hm : isGitopsMatch s = false := by simp [isGitopsMatch, hspec]
      rw [List.filter_cons_of_neg (by simp [hm])] at h
      simpa [selectGitopsSubscription, hspec] using ih h
    | some sp =>
      by_cases hpkg : sp.package = "openshift-gitops-operator"
      · have hm : isGitopsMatch s = true := by simp [isGitopsMatch, hspec, hpkg]
        rw [List.filter_cons_of_pos (by simp [hm])] at h
        have hne : rest.filter isGitopsMatch ≠ [] := by
          intro hcontra
          rw [hcontra] at h
          simp at h
        simpa [selectGitopsSubscription, hspec, hpkg] using
          selectGitopsSubscription_some_fatal rest s hne
      · have hm : isGitopsMatch s = false := by simp [isGitopsMatch, hspec, hpkg]
        rw [List.filter_cons_of_neg (by simp [hm])] at h
        simpa [selectGitopsSubscription, hspec, hpkg] using ih h

/-- C6.  When the subscription listing succeeds and at least two records
match the gitops package identifier, the resolver returns exactly one
entry, of severity Fatal, and an installation state with every optional
field unset. -/
theorem claim_two_subscriptions_fatal (ds : DataSource) (subs : List Subscription)
    (h1 : ds.subscriptionList = .ok subs)
    (h2 : 2 ≤ (subs.filter isGitopsMatch).length) :
    ∃ m, acquireInstallConfigurationData ds =
      .ok ({ operatorVersion := none, operatorInstallNS := "",
             clusterScopedNamespaces := [], namespaceWithManagedByLabel := none,
             namespaceWithManagedByClusterArgoCDLabel := none,
             namespaceWithArgoCDApplicationSetManagedByClusterArgoCDLabel := none,
             namespaceWithArgoCDNotificationsManagedByClusterArgoCDLabel := none },
           [{ level := LogLevel.Fatal, message := m }]) := by
  obtain ⟨e, hsel, hlev⟩ := selectGitopsSubscription_two_fatal subs h2
  refine ⟨e.message, ?_⟩
  simp only [acquireInstallConfigurationData, h1, hsel]
  cases e with
  | mk lv msg =>
    simp only at hlev
    rw [hlev]

/-- Witness for C6 at a concrete data source listing two gitops
Subscriptions. -/
theorem claim_two_subscriptions_fatal_witness :
    ∃ m, acquireInstallConfigurationData dsTwoSubscriptions =
      .ok ({ operatorVersion := none, operatorInstallNS := "",
             clusterScopedNamespaces := [], namespaceWithManagedByLabel := none,
             namespaceWithManagedByClusterArgoCDLabel := none,
             namespaceWithArgoCDApplicationSetManagedByClusterArgoCDLabel := none,
             namespaceWithArgoCDNotificationsManagedByClusterArgoCDLabel := none },
           [{ level := LogLevel.Fatal, message := m }]) :=
  claim_two_subscriptions_fatal dsTwoSubscriptions twoGitopsSubscriptions rfl (by decide)

/-! ## C7: a Fatal resolution entry stops the run before evaluation -/

/-- C7.  Whenever the resolution phase produces a Fatal entry, the run
reports the resolution entries and stops: the configuration objects are
never listed, and the rule engine is never invoked. -/
theorem claim_fatal_stops_run (ds : DataSource) (ci : clusterInformation) (es : List entry)
    (h : acquireInstallConfigurationData ds = .ok (ci, es))
    (hf : entryListContainsFatal es = true) :
    runChecks ds = .ok { resolutionEntries := es, outcome := .stoppedOnFatal } := by
  unfold runChecks
  rw [h]
  simp [hf]

/-- Witness for C7 at a data source whose namespace listing fails with a
Fatal entry. -/
theorem claim_fatal_stops_run_witness :
    runChecks dsNamespaceListFails =
      .ok { resolutionEntries :=
              [{ level := LogLevel.Fatal
                 message := "unable to list Namespaces: the server could not list namespaces" }]
            outcome := .stoppedOnFatal } :=
  claim_fatal_stops_run dsNamespaceListFails
    { operatorVersion := some "1.19.0", operatorInstallNS := "openshift-gitops-operator",
      clusterScopedNamespaces := ["openshift-gitops"], namespaceWithManagedByLabel := none,
      namespaceWithManagedByClusterArgoCDLabel := none,
      namespaceWithArgoCDApplicationSetManagedByClusterArgoCDLabel := none,
      namespaceWithArgoCDNotificationsManagedByClusterArgoCDLabel := none }
    [{ level := LogLevel.Fatal
       message := "unable to list Namespaces: the server could not list namespaces" }]
    rfl rfl

/-! ## C5: the resolved scoping-namespaces list -/

/-- Counterexample to C5 as stated: a run on which every resolver step
succeeds (zero entries are produced) but whose Subscription has a
`.spec.config` section without any `ARGOCD_CLUSTER_CONFIG_NAMESPACES`
entry completes with an empty scoping-namespaces list — neither the
built-in default nor any configured list: it is left empty with no
default. -/
theorem claim_scope_list_counterexample :
    acquireInstallConfigurationData dsEmptyConfigSection =
      .ok ({ operatorVersion := some "1.19.0"
             operatorInstallNS := "openshift-gitops-operator"
             clusterScopedNamespaces := []
             namespaceWithManagedByLabel := some []
             namespaceWithManagedByClusterArgoCDLabel := none
             namespaceWithArgoCDApplicationSetManagedByClusterArgoCDLabel := none
             namespaceWithArgoCDNotificationsManagedByClusterArgoCDLabel := none },
           []) ∧
    ([] : List String) ≠ ["openshift-gitops"] :=
  ⟨rfl, by decide⟩

theorem applyNamespaceLabels_scopes (ci : clusterInformation) (nsp : K8sNamespace)
    (ci2 : clusterInformation) (h : applyNamespaceLabels ci nsp = .ok ci2) :
    ci2.clusterScopedNamespaces = ci.clusterScopedNamespaces := by
  unfold applyNamespaceLabels at h
  rcases h1 : labelStep ci.namespaceWithManagedByLabel argoCDManagedByLabel nsp with e | m1 <;>
    rw [h1] at h
  · simp at h
  rcases h2 : labelStep ci.namespaceWithManagedByClusterArgoCDLabel
      argoCDManagedByClusterArgoCDLabel nsp with e | m2 <;> rw [h2] at h
  · simp at h
  rcases h3 : labelStep ci.namespaceWithArgoCDApplicationSetManagedByClusterArgoCDLabel
      argoCDApplicationSetManagedByClusterArgoCDLabel nsp with e | m3 <;> rw [h3] at h
  · simp at h
  rcases h4 : labelStep ci.namespaceWithArgoCDNotificationsManagedByClusterArgoCDLabel
      argoCDNotificationsManagedByClusterArgoCDLabel nsp with e | m4 <;> rw [h4] at h
  · simp at h
  simp only [Except.ok.injEq] at h
  rw [← h]

theorem applyAllNamespaceLabels_scopes :
    ∀ (nss : List K8sNamespace) (ci ci2 : clusterInformation),
    applyAllNamespaceLabels ci nss = .ok ci2 →
    ci2.clusterScopedNamespaces = ci.clusterScopedNamespaces := by
  intro nss
  induction nss with
  | nil =>
    intro ci ci2 h
    simp only [applyAllNamespaceLabels, Except.ok.injEq] at h
    rw [← h]
  | cons nsp rest ih =>
    intro ci ci2 h
    unfold applyAllNamespaceLabels at h
    rcases h1 : applyNamespaceLabels ci nsp with e | cimid <;> rw [h1] at h
    · simp at h
    · rw [ih cimid ci2 h, applyNamespaceLabels_scopes ci nsp cimid h1]

/-- C5 as amended.  For every resolver run that reaches the
scoping-namespaces parsing step (subscription list succeeded, a unique
gitops subscription was selected, the CSV pointers agree) and that
returns normally, the resolved scoping-namespaces list is: the built-in
default when the config sub-section is entirely absent, and otherwise
the concatenation of the parsed values (split on commas, trimmed,
empties dropped) of the `ARGOCD_CLUSTER_CONFIG_NAMESPACES` occurrences —
which is empty when the key never occurs, with no default applied. -/
theorem claim_scope_list_amended (ds : DataSource) (subs : List Subscription)
    (gsub : Subscription) (gspec : SubscriptionSpec)
    (h1 : ds.subscriptionList = .ok subs)
    (h2 : selectGitopsSubscription subs none = .ok (some gsub))
    (h3 : gsub.spec = some gspec)
    (h4 : gsub.status.installedCSV = gsub.status.currentCSV)
    (ci : clusterInformation) (es : List entry)
    (h5 : acquireInstallConfigurationData ds = .ok (ci, es)) :
    ci.clusterScopedNamespaces =
      (match gspec.config with
       | none => ["openshift-gitops"]
       | some config => (scanClusterConfigNamespacesEnv config.env).1) := by
  simp only [acquireInstallConfigurationData, h1, h2, h3] at h5
  rw [if_neg (by simp [h4])] at h5
  rcases hconf : gspec.config with _ | config <;> rw [hconf] at h5 <;> simp only []
  · -- config absent: the default is assigned
    simp only [Option.isSome_none, Bool.false_and] at h5
    rw [if_neg (by decide)] at h5
    split at h5
    · simp only [Except.ok.injEq, Prod.mk.injEq] at h5
      rw [← h5.1]
    · split at h5
      · simp only [Except.ok.injEq, Prod.mk.injEq] at h5
        rw [← h5.1]
      · split at h5
        · simp only [Except.ok.injEq, Prod.mk.injEq] at h5
          rw [← h5.1]
        · split at h5
          · simp at h5
          · rename_i ci5 happly
            simp only [Except.ok.injEq, Prod.mk.injEq] at h5
            rw [← h5.1, applyAllNamespaceLabels_scopes _ _ ci5 happly]
  · -- config present: the scan result is assigned, default never applies
    split at h5
    · simp only [Except.ok.injEq, Prod.mk.injEq] at h5
      rw [← h5.1]
    · split at h5
      · simp only [Except.ok.injEq, Prod.mk.injEq] at h5
        rw [← h5.1]
      · split at h5
        · simp only [Except.ok.injEq, Prod.mk.injEq] at h5
          rw [← h5.1]
        · split at h5
          · simp only [Except.ok.injEq, Prod.mk.injEq] at h5
            rw [← h5.1]
          · split at h5
            · simp at h5
            · rename_i ci5 happly
              simp only [Except.ok.injEq, Prod.mk.injEq] at h5
              rw [← h5.1, applyAllNamespaceLabels_scopes _ _ ci5 happly]

/-- Witness for the amended C5 at a data source configuring two explicit
scopes. -/
theorem claim_scope_list_amended_witness :
    ({ operatorVersion := some "1.19.0"
       operatorInstallNS := "openshift-gitops-operator"
       clusterScopedNamespaces := ["openshift-gitops", "argocd-prod"]
       namespaceWithManagedByLabel := some []
       namespaceWithManagedByClusterArgoCDLabel := none
       namespaceWithArgoCDApplicationSetManagedByClusterArgoCDLabel := none
       namespaceWithArgoCDNotificationsManagedByClusterArgoCDLabel := none } :
        clusterInformation).clusterScopedNamespaces =
      (scanClusterConfigNamespacesEnv
        [{ name := "ARGOCD_CLUSTER_CONFIG_NAMESPACES"
           value := "openshift-gitops, argocd-prod" }]).1 :=
  claim_scope_list_amended dsTwoScopes [gitopsSubscriptionTwoScopes]
    gitopsSubscriptionTwoScopes
    { package := "openshift-gitops-operator"
      config := some { env := [{ name := "ARGOCD_CLUSTER_CONFIG_NAMESPACES"
                                 value := "openshift-gitops, argocd-prod" }] } }
    rfl rfl rfl rfl _ [] rfl

/-! ## C8: every custom-image override field -/

theorem string_length_pos {s : String} (h : s ≠ "") : 0 < s.length := by
  rcases s with ⟨data⟩
  cases data with
  | nil => exact absurd rfl h
  | cons c cs => simp [String.length]

/-- C8.  For each of the nine custom-image override fields the engine
checks, setting that field to any non-empty string on an otherwise
default object makes the unsupported-custom-image rule produce exactly
one issue: severity Error, unsupported flag set, and the documented
field path of that image field. -/
theorem claim_custom_image_fields :
    (∀ s : String, s ≠ "" →
      checkArgoCDCRForUnsupportedCustomImages
          { spec := { applicationSet := some { image := s } } } =
        [customImageIssue ".spec.applicationSet.image"]) ∧
    (∀ s : String, s ≠ "" →
      checkArgoCDCRForUnsupportedCustomImages
          { spec := { sso := some { dex := some { image := s } } } } =
        [customImageIssue ".spec.sso.dex.image"]) ∧
    (∀ s : String, s ≠ "" →
      checkArgoCDCRForUnsupportedCustomImages
          { spec := { ha := { redisProxyImage := s } } } =
        [customImageIssue ".spec.ha.redisProxyImage"]) ∧
    (∀ s : String, s ≠ "" →
      checkArgoCDCRForUnsupportedCustomImages
          { spec := { argoCDAgent := some { agent := some { image := s } } } } =
        [customImageIssue ".spec.argoCDAgent.agent.image"]) ∧
    (∀ s : String, s ≠ "" →
      checkArgoCDCRForUnsupportedCustomImages
          { spec := { argoCDAgent := some { principal := some { image := s } } } } =
        [customImageIssue ".spec.argoCDAgent.principal.image"]) ∧
    (∀ s : String, s ≠ "" →
      checkArgoCDCRForUnsupportedCustomImages
          { spec := { notifications := { image := s } } } =
        [customImageIssue ".spec.notifications.image"]) ∧
    (∀ s : String, s ≠ "" →
      checkArgoCDCRForUnsupportedCustomImages
          { spec := { redis := { image := s } } } =
        [customImageIssue ".spec.redis.image"]) ∧
    (∀ s : String, s ≠ "" →
      checkArgoCDCRForUnsupportedCustomImages
          { spec := { repo := { image := s } } } =
        [customImageIssue ".spec.repo.image"]) ∧
    (∀ s : String, s ≠ "" →
      checkArgoCDCRForUnsupportedCustomImages
          { spec := { image := s } } =
        [customImageIssue ".spec.image"]) := by
  refine ⟨?_, ?_, ?_, ?_, ?_, ?_, ?_, ?_, ?_⟩ <;>
    exact fun s hs => by
      simp [checkArgoCDCRForUnsupportedCustomImages, string_length_pos hs]

/-- Witness for C8 at one concrete non-empty image string per field. -/
theorem claim_custom_image_fields_witness :
    checkArgoCDCRForUnsupportedCustomImages
        { spec := { applicationSet := some { image := "quay.io/custom:1" } } } =
      [customImageIssue ".spec.applicationSet.image"] ∧
    checkArgoCDCRForUnsupportedCustomImages
        { spec := { sso := some { dex := some { image := "quay.io/custom:1" } } } } =
      [customImageIssue ".spec.sso.dex.image"] ∧
    checkArgoCDCRForUnsupportedCustomImages
        { spec := { ha := { redisProxyImage := "quay.io/custom:1" } } } =
      [customImageIssue ".spec.ha.redisProxyImage"] ∧
    checkArgoCDCRForUnsupportedCustomImages
        { spec := { argoCDAgent := some { agent := some { image := "quay.io/custom:1" } } } } =
      [customImageIssue ".spec.argoCDAgent.agent.image"] ∧
    checkArgoCDCRForUnsupportedCustomImages
        { spec := { argoCDAgent := some { principal := some { image := "quay.io/custom:1" } } } } =
      [customImageIssue ".spec.argoCDAgent.principal.image"] ∧
    checkArgoCDCRForUnsupportedCustomImages
        { spec := { notifications := { image := "quay.io/custom:1" } } } =
      [customImageIssue ".spec.notifications.image"] ∧
    checkArgoCDCRForUnsupportedCustomImages
        { spec := { redis := { image := "quay.io/custom:1" } } } =
      [customImageIssue ".spec.redis.image"] ∧
    checkArgoCDCRForUnsupportedCustomImages
        { spec := { repo := { image := "quay.io/custom:1" } } } =
      [customImageIssue ".spec.repo.image"] ∧
    checkArgoCDCRForUnsupportedCustomImages
        { spec := { image := "quay.io/custom:1" } } =
      [customImageIssue ".spec.image"] := by
  obtain ⟨h1, h2, h3, h4, h5, h6, h7, h8, h9⟩ := claim_custom_image_fields
  exact ⟨h1 _ (by decide), h2 _ (by decide), h3 _ (by decide), h4 _ (by decide),
    h5 _ (by decide), h6 _ (by decide), h7 _ (by decide), h8 _ (by decide), h9 _ (by decide)⟩

/-! ## C10: applicationSet checks are inert when `enabled` is unset -/

theorem mem_ite_singleton {c : Prop} [Decidable c] {x i : issue}
    (hi : i ∈ (if c then [x] else [])) : i = x := by
  split at hi
  · simpa using hi
  · simp at hi

theorem forall_mem_append2 {P : issue → Prop} {A B : List issue}
    (hA : ∀ i ∈ A, P i) (hB : ∀ i ∈ B, P i) : ∀ i ∈ A ++ B, P i := by
  intro i hi
  rcases List.mem_append.mp hi with h | h
  exacts [hA i h, hB i h]

theorem forall_mem_ite_singleton {P : issue → Prop} {c : Prop} [Decidable c] {x : issue}
    (hx : P x) : ∀ i ∈ (if c then [x] else []), P i := by
  intro i hi
  rw [mem_ite_singleton hi]
  exact hx

theorem forall_mem_ite_nil {P : issue → Prop} {c : Prop} [Decidable c] {A : List issue}
    (hA : ∀ i ∈ A, P i) : ∀ i ∈ (if c then A else []), P i := by
  intro i hi
  split at hi
  · exact hA i hi
  · simp at hi

/-- If some string that is incomparable (prefix-wise) with `p` is a
prefix of `f`, then `f` does not start with `p`. -/
theorem strStartsWith_false_of_prefix (f p a : String)
    (hpre : a.data <+: f.data)
    (h1 : a.data.isPrefixOf p.data = false)
    (h2 : p.data.isPrefixOf a.data = false) :
    strStartsWith f p = false := by
  unfold strStartsWith
  by_contra hcon
  rw [Bool.not_eq_false] at hcon
  have hp : p.data <+: f.data := List.isPrefixOf_iff_prefix.mp hcon
  rcases List.prefix_or_prefix_of_prefix hp hpre with h | h
  · exact absurd (List.isPrefixOf_iff_prefix.mpr h) (by simp [h2])
  · exact absurd (List.isPrefixOf_iff_prefix.mpr h) (by simp [h1])

theorem strStartsWith_append2_false (a b p : String)
    (h1 : a.data.isPrefixOf p.data = false)
    (h2 : p.data.isPrefixOf a.data = false) :
    strStartsWith (a ++ b) p = false :=
  strStartsWith_false_of_prefix (a ++ b) p a ⟨b.data, rfl⟩ h1 h2

theorem strStartsWith_append3_false (a b c p : String)
    (h1 : a.data.isPrefixOf p.data = false)
    (h2 : p.data.isPrefixOf a.data = false) :
    strStartsWith (a ++ b ++ c) p = false :=
  strStartsWith_false_of_prefix (a ++ b ++ c) p a
    ⟨b.data ++ c.data, by show a.data ++ (b.data ++ c.data) = (a.data ++ b.data) ++ c.data; rw [List.append_assoc]⟩
    h1 h2

/-- No issue produced by the sharding-algorithm tech-preview loop has a
field path under `.spec.applicationSet`. -/
theorem shardingAlgorithmIssues_fields :
    ∀ (algs : List String) (env : List EnvVar) (args : List String),
    ∀ i ∈ shardingAlgorithmIssues env args algs,
    strStartsWith i.field ".spec.applicationSet" = false := by
  intro algs
  induction algs with
  | nil => intro env args i hi; simp [shardingAlgorithmIssues] at hi
  | cons alg rest ih =>
    intro env args i hi
    simp only [shardingAlgorithmIssues] at hi
    rcases List.mem_append.mp hi with hi | hi
    · rw [mem_ite_singleton hi]
      exact strStartsWith_append2_false _ _ _ (by decide) (by decide)
    · split at hi
      · have := List.mem_singleton.mp hi
        rw [this]
        exact strStartsWith_append2_false _ _ _ (by decide) (by decide)
      · exact ih env args i hi

/-- No direct-translation issue has a field path under
`.spec.applicationSet`. -/
theorem directTranslationIssues_fields (ec : List (String × String)) :
    ∀ i ∈ directTranslationIssues ec,
    strStartsWith i.field ".spec.applicationSet" = false := by
  intro i hi
  obtain ⟨dt, _, hf⟩ := List.mem_filterMap.mp hi
  split at hf
  · simp only [Option.some.injEq] at hf
    rw [← hf]
    exact strStartsWith_append3_false _ _ _ _ (by decide) (by decide)
  · simp at hf

/-- No prefix-family issue has a field path under
`.spec.applicationSet`. -/
theorem prefixFamilyIssues_fields (ec : List (String × String)) :
    ∀ i ∈ prefixFamilyIssues ec,
    strStartsWith i.field ".spec.applicationSet" = false := by
  unfold prefixFamilyIssues
  exact forall_mem_append2
    (forall_mem_append2 (forall_mem_ite_singleton (by decide))
      (forall_mem_ite_singleton (by decide)))
    (forall_mem_ite_singleton (by decide))

/-- No appController overlap issue has a field path under
`.spec.applicationSet`. -/
theorem controllerOverlapIssues_fields (c : ArgoCDApplicationControllerSpec) :
    ∀ i ∈ controllerOverlapIssues c,
    strStartsWith i.field ".spec.applicationSet" = false := by
  unfold controllerOverlapIssues
  exact forall_mem_append2
    (forall_mem_append2
      (forall_mem_append2
        (forall_mem_append2
          (forall_mem_append2
            (forall_mem_append2 (forall_mem_ite_singleton (by decide))
              (forall_mem_ite_singleton (by decide)))
            (forall_mem_ite_singleton (by decide)))
          (forall_mem_ite_singleton (by decide)))
        (forall_mem_ite_singleton (by decide)))
      (forall_mem_ite_singleton (by decide)))
    (forall_mem_ite_singleton (by decide))

/-- C10.  When the applicationSet section is present but its `enabled`
pointer is unset, neither the tech-preview rule nor the
shadowed-setting rule emits any issue for the applicationSet component
(no produced field path lies under `.spec.applicationSet`), whatever
the section's fields, env vars or command args hold. -/
theorem claim_appset_checks_inert_when_enabled_unset (a : ArgoCD)
    (appSet : ArgoCDApplicationSet)
    (h1 : a.spec.applicationSet = some appSet)
    (h2 : appSet.enabled = none) :
    (∀ i ∈ checkForTechPreviewOrExperimentalFeatures a,
       strStartsWith i.field ".spec.applicationSet" = false) ∧
    (∀ i ∈ checkForEnvVarsOrParamsWhichOverlapWithCRFields a,
       strStartsWith i.field ".spec.applicationSet" = false) := by
  have henabled : (appSet.enabled == some true) = false := by rw [h2]; rfl
  constructor
  · unfold checkForTechPreviewOrExperimentalFeatures
    rw [h1]
    simp only [henabled, Bool.false_eq_true, if_false]
    refine forall_mem_append2 (by simp) ?_
    exact forall_mem_ite_nil
      (forall_mem_append2 (forall_mem_ite_singleton (by decide))
        (shardingAlgorithmIssues_fields _ _ _))
  · unfold checkForEnvVarsOrParamsWhichOverlapWithCRFields
    rw [h1]
    simp only [henabled, Bool.false_eq_true, if_false]
    refine forall_mem_append2 (forall_mem_append2 (forall_mem_append2 (forall_mem_append2
      (forall_mem_ite_nil (forall_mem_append2 (directTranslationIssues_fields _)
        (prefixFamilyIssues_fields _)))
      (by simp))
      (forall_mem_ite_nil (controllerOverlapIssues_fields _)))
      (forall_mem_ite_nil ?_)) (forall_mem_ite_nil ?_)
    · unfold repoOverlapIssues
      exact forall_mem_ite_singleton (by decide)
    · unfold serverOverlapIssues
      exact forall_mem_ite_singleton (by decide)

/-- Witness for C10 at a concrete object whose applicationSet section
sets every relevant field while leaving `enabled` unset. -/
theorem claim_appset_checks_inert_when_enabled_unset_witness :
    (∀ i ∈ checkForTechPreviewOrExperimentalFeatures argoCDAppSetEnabledUnset,
       strStartsWith i.field ".spec.applicationSet" = false) ∧
    (∀ i ∈ checkForEnvVarsOrParamsWhichOverlapWithCRFields argoCDAppSetEnabledUnset,
       strStartsWith i.field ".spec.applicationSet" = false) :=
  claim_appset_checks_inert_when_enabled_unset argoCDAppSetEnabledUnset
    appSetEnabledUnset rfl rfl

/-! ## C9: the operation-processors memory heuristic -/

theorem forall_mem_singleton {P : issue → Prop} {x : issue} (hx : P x) :
    ∀ i ∈ [x], P i := by
  intro i hi
  rw [List.mem_singleton.mp hi]
  exact hx

theorem forall_mem_filterMap {α : Type} {P : issue → Prop} {f : α → Option issue}
    {l : List α} (h : ∀ x i, f x = some i → P i) : ∀ i ∈ l.filterMap f, P i := by
  intro i hi
  obtain ⟨x, _, hfx⟩ := List.mem_filterMap.mp hi
  exact h x i hfx

/-- Appending anything to a string that is not a prefix of `d` cannot
yield `d`. -/
theorem append2_ne (a b d : String) (h1 : a.data.isPrefixOf d.data = false) :
    a ++ b ≠ d := by
  intro hcon
  have hp : a.data <+: d.data := by
    rw [← hcon]
    exact ⟨b.data, rfl⟩
  exact absurd (List.isPrefixOf_iff_prefix.mpr hp) (by simp [h1])

/-- Same, through a double append. -/
theorem append3_ne (a b c d : String) (h1 : a.data.isPrefixOf d.data = false) :
    a ++ b ++ c ≠ d := by
  intro hcon
  have hp : a.data <+: d.data := by
    rw [← hcon]
    exact ⟨b.data ++ c.data, by
      show a.data ++ (b.data ++ c.data) = (a.data ++ b.data) ++ c.data
      rw [List.append_assoc]⟩
  exact absurd (List.isPrefixOf_iff_prefix.mpr hp) (by simp [h1])

/-- The predicate "this issue does not sit at the heuristic's field
path", used to show the heuristic's path is touched by no other rule. -/
def notAtOperationProcessorsPath (i : issue) : Prop :=
  ¬((i.field == operationProcessorsFieldPath) = true)

theorem notAtPath_of_ne {i : issue} (h : i.field ≠ operationProcessorsFieldPath) :
    notAtOperationProcessorsPath i := by
  simpa [notAtOperationProcessorsPath] using h

theorem filter_opPath_eq_nil {l : List issue}
    (h : ∀ i ∈ l, notAtOperationProcessorsPath i) :
    l.filter (fun i => i.field == operationProcessorsFieldPath) = [] :=
  List.filter_eq_nil_iff.mpr h

theorem deprecatedFields_notAtPath (a : ArgoCD) :
    ∀ i ∈ checkArgoCDCRForDeprecatedFields a, notAtOperationProcessorsPath i := by
  unfold checkArgoCDCRForDeprecatedFields
  refine forall_mem_append2 (forall_mem_append2 (forall_mem_append2 (forall_mem_append2
    (forall_mem_ite_singleton (notAtPath_of_ne (by decide)))
    (forall_mem_ite_singleton (notAtPath_of_ne (by decide))))
    (forall_mem_ite_singleton (notAtPath_of_ne (by decide))))
    (forall_mem_ite_singleton (notAtPath_of_ne (by decide)))) ?_
  rcases hs : a.spec.sso with _ | sso
  · simp [hs]
  · simp only [hs]
    rcases hk : sso.keycloak with _ | u
    · simp [hk]
    · simp only [hk]
      exact forall_mem_singleton (notAtPath_of_ne (by decide))

theorem customImages_notAtPath (a : ArgoCD) :
    ∀ i ∈ checkArgoCDCRForUnsupportedCustomImages a, notAtOperationProcessorsPath i := by
  unfold checkArgoCDCRForUnsupportedCustomImages
  refine forall_mem_append2 (forall_mem_append2 (forall_mem_append2 (forall_mem_append2
    (forall_mem_append2 (forall_mem_append2 (forall_mem_append2 ?_ ?_)
      (forall_mem_ite_singleton (notAtPath_of_ne (by decide)))) ?_)
    (forall_mem_ite_singleton (notAtPath_of_ne (by decide))))
    (forall_mem_ite_singleton (notAtPath_of_ne (by decide))))
    (forall_mem_ite_singleton (notAtPath_of_ne (by decide))))
    (forall_mem_ite_singleton (notAtPath_of_ne (by decide)))
  · rcases ha : a.spec.applicationSet with _ | appSet
    · simp [ha]
    · simp only [ha]
      exact forall_mem_ite_singleton (notAtPath_of_ne (by decide))
  · rcases hs : a.spec.sso with _ | sso
    · simp [hs]
    · simp only [hs]
      rcases hd : sso.dex with _ | dex
      · simp [hd]
      · simp only [hd]
        exact forall_mem_ite_singleton (notAtPath_of_ne (by decide))
  · rcases hg : a.spec.argoCDAgent with _ | agentSpec
    · simp [hg]
    · simp only [hg]
      refine forall_mem_append2 ?_ ?_
      · rcases hag : agentSpec.agent with _ | agent
        · simp [hag]
        · simp only [hag]
          exact forall_mem_ite_singleton (notAtPath_of_ne (by decide))
      · rcases hpr : agentSpec.principal with _ | principal
        · simp [hpr]
        · simp only [hpr]
          exact forall_mem_ite_singleton (notAtPath_of_ne (by decide))

theorem shardingAlgorithmIssues_notAtPath :
    ∀ (algs : List String) (env : List EnvVar) (args : List String),
    ∀ i ∈ shardingAlgorithmIssues env args algs, notAtOperationProcessorsPath i := by
  intro algs
  induction algs with
  | nil => intro env args i hi; simp [shardingAlgorithmIssues] at hi
  | cons alg rest ih =>
    intro env args i hi
    simp only [shardingAlgorithmIssues] at hi
    rcases List.mem_append.mp hi with hi | hi
    · rw [mem_ite_singleton hi]
      exact notAtPath_of_ne (append2_ne _ _ _ (by decide))
    · split at hi
      · rw [List.mem_singleton.mp hi]
        exact notAtPath_of_ne (append2_ne _ _ _ (by decide))
      · exact ih env args i hi

theorem techPreview_notAtPath (a : ArgoCD) :
    ∀ i ∈ checkForTechPreviewOrExperimentalFeatures a, notAtOperationProcessorsPath i := by
  unfold checkForTechPreviewOrExperimentalFeatures
  refine forall_mem_append2 ?_ ?_
  · rcases ha : a.spec.applicationSet with _ | appSet
    · simp [ha]
    · simp only [ha]
      refine forall_mem_ite_nil ?_
      exact forall_mem_append2 (forall_mem_append2
        (forall_mem_ite_singleton (notAtPath_of_ne (by decide)))
        (forall_mem_ite_singleton (notAtPath_of_ne (by decide))))
        (forall_mem_ite_singleton (notAtPath_of_ne (by decide)))
  · exact forall_mem_ite_nil (forall_mem_append2
      (forall_mem_ite_singleton (notAtPath_of_ne (by decide)))
      (shardingAlgorithmIssues_notAtPath _ _ _))

theorem overlap_notAtPath (a : ArgoCD) :
    ∀ i ∈ checkForEnvVarsOrParamsWhichOverlapWithCRFields a, notAtOperationProcessorsPath i := by
  unfold checkForEnvVarsOrParamsWhichOverlapWithCRFields
  refine forall_mem_append2 (forall_mem_append2 (forall_mem_append2 (forall_mem_append2
    (forall_mem_ite_nil (forall_mem_append2 ?_ ?_)) ?_)
    (forall_mem_ite_nil ?_)) (forall_mem_ite_nil ?_)) (forall_mem_ite_nil ?_)
  · unfold directTranslationIssues
    refine forall_mem_filterMap ?_
    intro dt i hf
    split at hf
    · simp only [Option.some.injEq] at hf
      rw [← hf]
      exact notAtPath_of_ne (append3_ne _ _ _ _ (by decide))
    · simp at hf
  · unfold prefixFamilyIssues
    exact forall_mem_append2 (forall_mem_append2
      (forall_mem_ite_singleton (notAtPath_of_ne (by decide)))
      (forall_mem_ite_singleton (notAtPath_of_ne (by decide))))
      (forall_mem_ite_singleton (notAtPath_of_ne (by decide)))
  · rcases ha : a.spec.applicationSet with _ | appSet
    · simp [ha]
    · simp only [ha]
      refine forall_mem_ite_nil ?_
      unfold appSetOverlapIssues
      exact forall_mem_append2 (forall_mem_ite_singleton (notAtPath_of_ne (by decide)))
        (forall_mem_ite_singleton (notAtPath_of_ne (by decide)))
  · unfold controllerOverlapIssues
    exact forall_mem_append2 (forall_mem_append2 (forall_mem_append2 (forall_mem_append2
      (forall_mem_append2 (forall_mem_append2
        (forall_mem_ite_singleton (notAtPath_of_ne (by decide)))
        (forall_mem_ite_singleton (notAtPath_of_ne (by decide))))
        (forall_mem_ite_singleton (notAtPath_of_ne (by decide))))
      (forall_mem_ite_singleton (notAtPath_of_ne (by decide))))
      (forall_mem_ite_singleton (notAtPath_of_ne (by decide))))
      (forall_mem_ite_singleton (notAtPath_of_ne (by decide))))
      (forall_mem_ite_singleton (notAtPath_of_ne (by decide)))
  · unfold repoOverlapIssues
    exact forall_mem_ite_singleton (notAtPath_of_ne (by decide))
  · unfold serverOverlapIssues
    exact forall_mem_ite_singleton (notAtPath_of_ne (by decide))

theorem statusField_notAtPath (a : ArgoCD) :
    ∀ i ∈ checkArgoCDStatusField a, notAtOperationProcessorsPath i := by
  unfold checkArgoCDStatusField
  refine forall_mem_append2 (forall_mem_ite_singleton (notAtPath_of_ne (by decide))) ?_
  refine forall_mem_filterMap ?_
  intro cond i hf
  split at hf
  · simp only [Option.some.injEq] at hf
    rw [← hf]
    exact notAtPath_of_ne (by decide)
  · simp at hf

theorem bestPractices_notAtPath (a : ArgoCD) :
    ∀ i ∈ checkForFailingBestPractices a, notAtOperationProcessorsPath i := by
  unfold checkForFailingBestPractices
  refine forall_mem_append2
    (forall_mem_ite_nil (forall_mem_ite_singleton (notAtPath_of_ne (by decide)))) ?_
  rcases hg : a.spec.argoCDAgent with _ | argocdAgent
  · simp [hg]
  · simp only [hg]
    refine forall_mem_append2 ?_ ?_
    · rcases hpr : argocdAgent.principal with _ | principal
      · simp [hpr]
      · simp only [hpr]
        rcases ht : principal.tls with _ | tls
        · simp [ht]
        · simp only [ht]
          exact forall_mem_ite_singleton (notAtPath_of_ne (by decide))
    · rcases hag : argocdAgent.agent with _ | agent
      · simp [hag]
      · simp only [hag]
        rcases ht : agent.tls with _ | tls
        · simp [ht]
        · simp only [ht]
          exact forall_mem_ite_singleton (notAtPath_of_ne (by decide))

theorem shardingMisconfiguration_notAtPath (c : ArgoCDApplicationControllerSpec) :
    ∀ i ∈ shardingMisconfigurationIssues c, notAtOperationProcessorsPath i := by
  unfold shardingMisconfigurationIssues
  exact forall_mem_ite_nil (forall_mem_ite_nil
    (forall_mem_ite_singleton (notAtPath_of_ne (by decide))))

theorem heuristic_allAtPath (c : ArgoCDApplicationControllerSpec) :
    ∀ i ∈ operationProcessorsHeuristicIssues c,
      (i.field == operationProcessorsFieldPath) = true := by
  unfold operationProcessorsHeuristicIssues
  refine forall_mem_ite_nil ?_
  rcases hr : c.resources with _ | res
  · simp [hr]
  · simp only [hr]
    rcases hl : res.limits with _ | limits
    · simp [hl]
    · simp only [hl]
      exact forall_mem_ite_singleton rfl

theorem heuristic_filter_self (c : ArgoCDApplicationControllerSpec) :
    (operationProcessorsHeuristicIssues c).filter
        (fun i => i.field == operationProcessorsFieldPath) =
      operationProcessorsHeuristicIssues c :=
  List.filter_eq_self.mpr (heuristic_allAtPath c)

/-- Within the whole evaluation of one object, the only issues at the
heuristic's field path are the heuristic's own (guarded by the
controller being enabled). -/
theorem eval_filter_opPath (a : ArgoCD) (ci : clusterInformation) :
    (checkIndividualArgoCDCR a ci).filter
        (fun i => i.field == operationProcessorsFieldPath) =
      (if componentIsEnabled a.spec.controller.enabled then
        operationProcessorsHeuristicIssues a.spec.controller
       else []) := by
  unfold checkIndividualArgoCDCR checkForIncorrectConfigurations
  simp only [List.filter_append]
  rw [filter_opPath_eq_nil (deprecatedFields_notAtPath a),
    filter_opPath_eq_nil (customImages_notAtPath a),
    filter_opPath_eq_nil (techPreview_notAtPath a),
    filter_opPath_eq_nil (overlap_notAtPath a),
    filter_opPath_eq_nil (statusField_notAtPath a),
    filter_opPath_eq_nil (bestPractices_notAtPath a)]
  have hec : (if a.spec.extraConfig.length > 0 then
      unsupportedExtraConfigIssues a.spec.extraConfig else []).filter
        (fun i => i.field == operationProcessorsFieldPath) = [] := by
    refine filter_opPath_eq_nil (forall_mem_ite_nil ?_)
    unfold unsupportedExtraConfigIssues
    refine forall_mem_filterMap ?_
    intro kv i hf
    split at hf
    · simp only [Option.some.injEq] at hf
      rw [← hf]
      exact notAtPath_of_ne (append3_ne _ _ _ _ (by decide))
    · simp at hf
  have hcp : (if a.spec.cmdParams.length > 0 then
      unsupportedCmdParamsIssues a.spec.cmdParams else []).filter
        (fun i => i.field == operationProcessorsFieldPath) = [] := by
    refine filter_opPath_eq_nil (forall_mem_ite_nil ?_)
    unfold unsupportedCmdParamsIssues
    refine forall_mem_filterMap ?_
    intro kv i hf
    split at hf
    · simp only [Option.some.injEq] at hf
      rw [← hf]
      exact notAtPath_of_ne (append3_ne _ _ _ _ (by decide))
    · simp at hf
  rw [hec, hcp]
  simp only [List.nil_append, List.append_nil]
  split
  · rw [List.filter_append,
      filter_opPath_eq_nil (shardingMisconfiguration_notAtPath a.spec.controller),
      heuristic_filter_self, List.nil_append]
  · simp

theorem wrap32_eq_self {x : Int} (h1 : -2147483648 ≤ x) (h2 : x < 2147483648) :
    wrap32 x = x := by
  unfold wrap32
  omega

/-- Counterexample to C9's general clause: with operation-processor
count 61356676 and a 512 MiB limit, the mathematical product
61356676 x 35 = 2147483660 exceeds the ceiling, yet evaluation emits no
issue at the heuristic's field path: the Go `int32` multiplication
wraps to a negative number. -/
theorem claim_processors_heuristic_counterexample :
    ((61356676 : Int) * 35 > Int.tdiv bytes512MiB (1024 * 1024)) ∧
    (checkIndividualArgoCDCR argoCDProcessorsOverflow {}).filter
        (fun i => i.field == operationProcessorsFieldPath) = [] := by
  constructor
  · decide
  · rfl

set_option maxRecDepth 40000 in
/-- C9 as amended.  (1) Any object with the controller enabled,
operation-processor count 20 and a 512 MiB memory limit evaluates to
exactly one issue at `.spec.controller.processors.operation`: a Warn
whose message contains both the estimate 700 and the limit 512.
(2) In general — provided the 32-bit multiplication does not overflow —
the Warn is emitted exactly when count x 35 exceeds the memory ceiling
in MiB. -/
theorem claim_processors_heuristic_amended :
    (∀ (a : ArgoCD) (ci : clusterInformation) (limits : List (String × Int)),
       componentIsEnabled a.spec.controller.enabled = true →
       a.spec.controller.processors.operation = 20 →
       a.spec.controller.resources = some { limits := some limits } →
       resourceListMemoryValue limits = bytes512MiB →
       (checkIndividualArgoCDCR a ci).filter
           (fun i => i.field == operationProcessorsFieldPath) =
         [operationProcessors20Issue] ∧
       "700".data <:+: operationProcessors20Issue.message.data ∧
       "512".data <:+: operationProcessors20Issue.message.data) ∧
    (∀ (a : ArgoCD) (ci : clusterInformation) (limits : List (String × Int)),
       componentIsEnabled a.spec.controller.enabled = true →
       a.spec.controller.resources = some { limits := some limits } →
       0 < a.spec.controller.processors.operation →
       a.spec.controller.processors.operation * 35 < 2147483648 →
       ((checkIndividualArgoCDCR a ci).filter
           (fun i => i.field == operationProcessorsFieldPath) ≠ [] ↔
         a.spec.controller.processors.operation * 35 >
           Int.tdiv (resourceListMemoryValue limits) (1024 * 1024))) := by
  constructor
  · intro a ci limits hen hop hres hmem
    refine ⟨?_, ?_, ?_⟩
    · rw [eval_filter_opPath, if_pos hen]
      unfold operationProcessorsHeuristicIssues
      simp only [hop, hres, hmem]
      decide
    · decide
    · decide
  · intro a ci limits hen hres hpos hover
    rw [eval_filter_opPath, if_pos hen]
    unfold operationProcessorsHeuristicIssues
    simp only [hres]
    rw [if_pos hpos]
    rw [wrap32_eq_self (by omega) hover]
    split
    · rename_i h
      exact ⟨fun _ => h, fun _ => by simp⟩
    · rename_i h
      exact ⟨fun hne => absurd rfl hne, fun hgt => absurd hgt h⟩

/-- Witness for the amended C9 at the concrete 20-processor, 512 MiB
object. -/
theorem claim_processors_heuristic_amended_witness :
    ((checkIndividualArgoCDCR argoCDProcessors20Limit512 {}).filter
        (fun i => i.field == operationProcessorsFieldPath) =
      [operationProcessors20Issue] ∧
     "700".data <:+: operationProcessors20Issue.message.data ∧
     "512".data <:+: operationProcessors20Issue.message.data) ∧
    ((checkIndividualArgoCDCR argoCDProcessors20Limit512 {}).filter
        (fun i => i.field == operationProcessorsFieldPath) ≠ [] ↔
      (20 : Int) * 35 > Int.tdiv (resourceListMemoryValue [("memory", bytes512MiB)]) (1024 * 1024)) :=
  ⟨claim_processors_heuristic_amended.1 argoCDProcessors20Limit512 {}
      [("memory", bytes512MiB)] rfl rfl rfl rfl,
   claim_processors_heuristic_amended.2 argoCDProcessors20Limit512 {}
      [("memory", bytes512MiB)] rfl rfl (by decide) (by decide)⟩

/-! ## C4: determinism of `evaluate` and Go map iteration order -/

/-- On association lists with distinct keys, lookup is invariant under
permutation (two iteration orders of the same Go map agree on reads). -/
theorem lookup_eq_of_perm {l l' : List (String × String)} (h : l.Perm l') :
    (l.map Prod.fst).Nodup → ∀ k, List.lookup k l = List.lookup k l' := by
  induction h with
  | nil => intro _ k; rfl
  | cons x h ih =>
    rcases x with ⟨kx, vx⟩
    intro hnodup k
    simp only [List.map_cons, List.nodup_cons] at hnodup
    rw [List.lookup_cons, List.lookup_cons]
    cases hk : k == kx
    · exact ih hnodup.2 k
    · rfl
  | swap x y t =>
    rcases x with ⟨kx, vx⟩
    rcases y with ⟨ky, vy⟩
    intro hnodup k
    simp only [List.map_cons, List.nodup_cons, List.mem_cons] at hnodup
    have hxy : ky ≠ kx := fun hcon => hnodup.1 (Or.inl hcon)
    rw [List.lookup_cons, List.lookup_cons, List.lookup_cons, List.lookup_cons]
    cases hky : k == ky <;> cases hkx : k == kx <;> try rfl
    · exact absurd ((beq_iff_eq.mp hky).symm.trans (beq_iff_eq.mp hkx)) hxy
  | trans h1 h2 ih1 ih2 =>
    intro hnodup k
    have hnodup2 := ((h1.map Prod.fst).nodup_iff).mp hnodup
    rw [ih1 hnodup k, ih2 hnodup2 k]

/-- `List.any` only depends on the multiset of elements. -/
theorem any_eq_of_perm {α : Type} {l l' : List α} (h : l.Perm l') (p : α → Bool) :
    l.any p = l'.any p := by
  cases ha : l.any p <;> cases hb : l'.any p <;> try rfl
  · obtain ⟨x, hx, hpx⟩ := List.any_eq_true.mp hb
    have hcontra : l.any p = true := List.any_eq_true.mpr ⟨x, h.mem_iff.mpr hx, hpx⟩
    rw [ha] at hcontra
    exact hcontra
  · obtain ⟨x, hx, hpx⟩ := List.any_eq_true.mp ha
    have hcontra : l'.any p = true := List.any_eq_true.mpr ⟨x, h.mem_iff.mp hx, hpx⟩
    rw [hb] at hcontra
    exact hcontra.symm

theorem mapGet_eq_of_perm {l l' : List (String × String)} (h : l.Perm l')
    (hnodup : (l.map Prod.fst).Nodup) (k : String) : mapGet l k = mapGet l' k := by
  unfold mapGet
  rw [lookup_eq_of_perm h hnodup k]

theorem directTranslationIssues_eq_of_perm {l l' : List (String × String)}
    (h : l.Perm l') (hnodup : (l.map Prod.fst).Nodup) :
    directTranslationIssues l = directTranslationIssues l' := by
  unfold directTranslationIssues
  congr 1
  funext dt
  rw [mapGet_eq_of_perm h hnodup]

theorem prefixFamilyIssues_eq_of_perm {l l' : List (String × String)} (h : l.Perm l') :
    prefixFamilyIssues l = prefixFamilyIssues l' := by
  unfold prefixFamilyIssues
  rw [any_eq_of_perm h, any_eq_of_perm h, any_eq_of_perm h]

/-- The shadowed-setting rule reads the extraConfig map only through
lookups and prefix searches, so it is a function of the map contents
alone. -/
theorem overlap_eq_of_perm (a : ArgoCD) (ec2 cp2 : List (String × String))
    (hnodup : (a.spec.extraConfig.map Prod.fst).Nodup)
    (hec : a.spec.extraConfig.Perm ec2) :
    checkForEnvVarsOrParamsWhichOverlapWithCRFields
        { a with spec := { a.spec with extraConfig := ec2, cmdParams := cp2 } } =
      checkForEnvVarsOrParamsWhichOverlapWithCRFields a := by
  unfold checkForEnvVarsOrParamsWhichOverlapWithCRFields
  have hlen : ec2.length = a.spec.extraConfig.length := hec.length_eq.symm
  show (if ec2.length > 0 then directTranslationIssues ec2 ++ prefixFamilyIssues ec2 else []) ++ _ ++ _ ++ _ ++ _ = _
  rw [hlen, directTranslationIssues_eq_of_perm hec hnodup,
    prefixFamilyIssues_eq_of_perm hec]

/-- The two map-iteration loops produce permuted issue lists when fed
permuted association lists; everything else in the
incorrect-configurations rule is unchanged. -/
theorem incorrect_perm_of_perm (a : ArgoCD) (ec2 cp2 : List (String × String))
    (hec : a.spec.extraConfig.Perm ec2) (hcp : a.spec.cmdParams.Perm cp2) :
    (checkForIncorrectConfigurations a).Perm
      (checkForIncorrectConfigurations
        { a with spec := { a.spec with extraConfig := ec2, cmdParams := cp2 } }) := by
  unfold checkForIncorrectConfigurations
  refine List.Perm.append (List.Perm.append ?_ (List.Perm.refl _)) ?_
  · show (if a.spec.extraConfig.length > 0 then _ else []).Perm
      (if ec2.length > 0 then _ else [])
    rw [← hec.length_eq]
    split
    · exact hec.filterMap _
    · exact List.Perm.refl _
  · show (if a.spec.cmdParams.length > 0 then _ else []).Perm
      (if cp2.length > 0 then _ else [])
    rw [← hcp.length_eq]
    split
    · exact hcp.filterMap _
    · exact List.Perm.refl _

set_option maxRecDepth 40000 in
/-- Counterexample to C4 as stated: the same two-key extraConfig map,
presented in its two possible iteration orders, makes `evaluate` return
two different (non-identical) issue lists — Go randomizes map iteration
order between calls, so two calls on the same arguments need not return
byte-identical lists. -/
theorem claim_evaluate_deterministic_counterexample :
    extraConfigOrderA.Perm extraConfigOrderB ∧
    (extraConfigOrderA.map Prod.fst).Nodup ∧
    checkIndividualArgoCDCR argoCDExtraConfigOrderA {} ≠
      checkIndividualArgoCDCR argoCDExtraConfigOrderB {} := by
  refine ⟨List.Perm.swap _ _ _, by decide, by decide⟩

/-- C4 as amended.  `evaluate` is deterministic up to the iteration
order of the `extraConfig` and `cmdParams` maps: presenting the same
map contents in any two iteration orders yields issue lists that are
permutations of each other (same multiset of issues; only the relative
order of the issues emitted by the two map-iteration loops can move). -/
theorem claim_evaluate_deterministic_amended (a : ArgoCD)
    (ec2 cp2 : List (String × String)) (ci : clusterInformation)
    (hnodup : (a.spec.extraConfig.map Prod.fst).Nodup)
    (hec : a.spec.extraConfig.Perm ec2)
    (hcp : a.spec.cmdParams.Perm cp2) :
    (checkIndividualArgoCDCR a ci).Perm
      (checkIndividualArgoCDCR
        { a with spec := { a.spec with extraConfig := ec2, cmdParams := cp2 } } ci) := by
  unfold checkIndividualArgoCDCR
  refine List.Perm.append (List.Perm.append ?_ ?_) ?_
  · refine List.Perm.append (List.Perm.append (List.Perm.append (List.Perm.append
      (List.Perm.refl _) (List.Perm.refl _)) (List.Perm.refl _)) ?_) ?_
    · exact (overlap_eq_of_perm a ec2 cp2 hnodup hec).symm ▸
        List.Perm.refl (checkForEnvVarsOrParamsWhichOverlapWithCRFields a)
    · exact incorrect_perm_of_perm a ec2 cp2 hec hcp
  · exact List.Perm.refl _
  · exact List.Perm.refl _

/-- Witness for the amended C4 at the concrete two-key map in its two
iteration orders. -/
theorem claim_evaluate_deterministic_amended_witness :
    (checkIndividualArgoCDCR argoCDExtraConfigOrderA {}).Perm
      (checkIndividualArgoCDCR argoCDExtraConfigOrderB {}) :=
  claim_evaluate_deterministic_amended argoCDExtraConfigOrderA
    extraConfigOrderB [] {} (by decide) (List.Perm.swap _ _ _) (List.Perm.refl _)

end ArgoCDConfigCheck
